import Mathlib

/-!
# Verification of the insomnia-mcp storage/tree engine

A shallow embedding of the storage layer of the `insomnia-mcp` repository:
the on-disk NDJSON record model (`src/storage/db.ts`), the folder-tree
resolver (`src/storage/folderTree.ts`), the entity converters
(`src/storage/converters.ts`) and the CRUD operations over collections,
folders, requests and environments (`src/storage/collections.ts`,
`src/storage/folders.ts`, `src/storage/requests.ts`,
`src/storage/environments.ts`).

Modelling conventions:
* The four NDJSON files are modelled as four lists of typed records held in
  a `Store`; reading a file filters by the record `type` discriminant just
  as `readWorkspaceRecords` and friends do, and writing a file replaces the
  whole list (whole-file rewrite semantics).
* Asynchronous I/O becomes explicit state passing: an operation takes a
  `Store` and returns its result together with the `Store` as left behind
  by the file writes it performed before returning or throwing.  A thrown
  `Error` becomes `Except.error` carrying the message string.
* `Date.now()` and `createId(...)` draw on ambient randomness/clock, so the
  timestamps and fresh ids an operation consumes are passed as explicit
  parameters.
* JavaScript `Map`/`Set`/object values are modelled as association lists /
  lists with the same insertion-order and overwrite semantics.
* The unbounded `while` loops of the folder-tree resolver are modelled with
  explicit fuel; the canonical entry points supply fuel that is proved
  sufficient (the fuel-stability theorem for the termination claim).
* Opaque JSON values that the store carries but never inspects are
  represented by `JsonValue` (a stand-in type).
-/

namespace InsomniaMCP

/-- Stand-in for opaque JSON values (`unknown` in the TypeScript source)
that the store carries around but never inspects. -/
abbrev JsonValue := String

/-! ## Record shapes (`src/storage/db.ts`) -/

/-- One entry of `RequestRecordHeader[]`. -/
structure RequestRecordHeader where
  name : String
  value : String
  disabled : Option Bool
deriving Repr, DecidableEq

/-- `RequestRecordBody` (`mimeType?`, `text?`; extra keys are never read). -/
structure RequestRecordBody where
  mimeType : Option String
  text : Option String
deriving Repr, DecidableEq

/-- `WorkspaceRecord`: a workspace/collection line of `insomnia.Workspace.db`. -/
structure WorkspaceRecord where
  _id : String
  type : String
  parentId : String
  modified : Nat
  created : Nat
  name : String
  description : Option String
  scope : String
deriving Repr, DecidableEq

/-- `RequestGroupRecord`: a folder line of `insomnia.RequestGroup.db`. -/
structure RequestGroupRecord where
  _id : String
  type : String
  parentId : String
  modified : Nat
  created : Nat
  name : String
  description : Option String
  environment : Option (List (String × JsonValue))
  environmentPropertyOrder : Option JsonValue
  metaSortKey : Option Int
  environmentType : Option String
deriving Repr, DecidableEq

/-- `RequestRecord`: a request line of `insomnia.Request.db`.
`body` is doubly optional: the outer `Option` is presence of the property,
the inner is `RequestRecordBody | null`. -/
structure RequestRecord where
  _id : String
  type : String
  parentId : String
  modified : Nat
  created : Nat
  url : String
  name : String
  description : Option String
  method : String
  headers : Option (List RequestRecordHeader)
  body : Option (Option RequestRecordBody)
  preRequestScript : Option String
  afterResponseScript : Option String
  parameters : Option (List JsonValue)
  authentication : Option (List (String × JsonValue))
  metaSortKey : Option Int
  isPrivate : Option Bool
  settingStoreCookies : Option Bool
  settingSendCookies : Option Bool
  settingDisableRenderRequestBody : Option Bool
  settingEncodeUrl : Option Bool
  settingRebuildPath : Option Bool
  settingFollowRedirects : Option String
deriving Repr, DecidableEq

/-- `EnvironmentRecord`: an environment line of `insomnia.Environment.db`.
`data` holds the key/value variable map (`none` models absent or `null`). -/
structure EnvironmentRecord where
  _id : String
  type : String
  parentId : String
  modified : Nat
  created : Nat
  name : String
  data : Option (List (String × JsonValue))
  dataPropertyOrder : Option JsonValue
  color : Option String
  isPrivate : Option Bool
  metaSortKey : Option Int
  environmentType : Option String
deriving Repr, DecidableEq

/-- `DEFAULTS.COLLECTION_SCOPE` from `src/storage/constants.ts`. -/
def COLLECTION_SCOPE : String := "collection"

/-- `DEFAULT_ENVIRONMENT_NAME` from `src/storage/db.ts`. -/
def DEFAULT_ENVIRONMENT_NAME : String := "Base Environment"

/-! ## The store: the four NDJSON files as in-memory record lists -/

/-- The contents of the four sibling NDJSON files that act as one logical
database (`insomnia.Workspace.db`, `insomnia.RequestGroup.db`,
`insomnia.Request.db`, `insomnia.Environment.db`). -/
structure Store where
  workspaces : List WorkspaceRecord
  folders : List RequestGroupRecord
  requests : List RequestRecord
  environments : List EnvironmentRecord
deriving Repr, DecidableEq

/-- `readWorkspaceRecords`: load the workspace file, filtered on the
`type` discriminant. -/
def readWorkspaceRecords (s : Store) : List WorkspaceRecord :=
  s.workspaces.filter (fun r => r.type == "Workspace")

/-- `writeWorkspaceRecords`: whole-file rewrite of the workspace file. -/
def writeWorkspaceRecords (s : Store) (records : List WorkspaceRecord) : Store :=
  { s with workspaces := records }

/-- `readRequestRecords`. -/
def readRequestRecords (s : Store) : List RequestRecord :=
  s.requests.filter (fun r => r.type == "Request")

/-- `writeRequestRecords`. -/
def writeRequestRecords (s : Store) (records : List RequestRecord) : Store :=
  { s with requests := records }

/-- `readRequestGroupRecords`. -/
def readRequestGroupRecords (s : Store) : List RequestGroupRecord :=
  s.folders.filter (fun r => r.type == "RequestGroup")

/-- `writeRequestGroupRecords`. -/
def writeRequestGroupRecords (s : Store) (records : List RequestGroupRecord) : Store :=
  { s with folders := records }

/-- `readEnvironmentRecords`. -/
def readEnvironmentRecords (s : Store) : List EnvironmentRecord :=
  s.environments.filter (fun r => r.type == "Environment")

/-- `writeEnvironmentRecords`. -/
def writeEnvironmentRecords (s : Store) (records : List EnvironmentRecord) : Store :=
  { s with environments := records }

/-! ## Folder tree resolver (`src/storage/folderTree.ts`)

A JavaScript `Map<string, RequestGroupRecord>` keeps one entry per key, at
the position of the key's first insertion, holding the value of the last
`set`; it is modelled as a duplicate-free list of records. -/

/-- One `Map.set` step: overwrite the entry with the same `_id`, else append. -/
def mapSet (m : List RequestGroupRecord) (f : RequestGroupRecord) :
    List RequestGroupRecord :=
  if m.any (fun g => g._id == f._id) then
    m.map (fun g => if g._id == f._id then f else g)
  else m ++ [f]

/-- `buildFolderLookup`: insert every folder into the map in list order. -/
def buildFolderLookup (folders : List RequestGroupRecord) :
    List RequestGroupRecord :=
  folders.foldl mapSet []

/-- `folderLookup.get(id)`. -/
def lookupFolder (lookup : List RequestGroupRecord) (id : String) :
    Option RequestGroupRecord :=
  lookup.find? (fun g => g._id == id)

/-- The `while` loop of `folderBelongsToWorkspace`, with explicit fuel.
`visited` is the cycle guard set; the walk follows `parentId` pointers until
it reaches the workspace id (true), a dead end, an empty id (falsy in JS) or
an already-visited id (false). -/
def folderBelongsAux (lookup : List RequestGroupRecord) (workspaceId : String) :
    Nat → String → List String → Bool
  | 0, _, _ => false
  | fuel + 1, parentId, visited =>
    if parentId == "" then false
    else if parentId == workspaceId then true
    else if visited.contains parentId then false
    else
      match lookupFolder lookup parentId with
      | none => false
      | some parentFolder =>
        folderBelongsAux lookup workspaceId fuel parentFolder.parentId
          (parentId :: visited)

/-- Canonical fuel for the upward walks: one more step than there are
entries in the lookup (proved sufficient in the fuel-stability theorem). -/
def walkFuel (lookup : List RequestGroupRecord) : Nat :=
  lookup.length + 1

/-- `folderBelongsToWorkspace`. -/
def folderBelongsToWorkspace (folder : RequestGroupRecord) (workspaceId : String)
    (lookup : List RequestGroupRecord) : Bool :=
  folderBelongsAux lookup workspaceId (walkFuel lookup) folder.parentId []

/-- `collectFoldersForWorkspace`. -/
def collectFoldersForWorkspace (workspaceId : String)
    (folders lookup : List RequestGroupRecord) : List RequestGroupRecord :=
  folders.filter (fun folder => folderBelongsToWorkspace folder workspaceId lookup)

/-- `requestBelongsToWorkspace`. -/
def requestBelongsToWorkspace (request : RequestRecord) (workspaceId : String)
    (lookup : List RequestGroupRecord) : Bool :=
  if request.parentId == workspaceId then true
  else
    match lookupFolder lookup request.parentId with
    | none => false
    | some folder => folderBelongsToWorkspace folder workspaceId lookup

/-- `collectRequestsForWorkspace`. -/
def collectRequestsForWorkspace (workspaceId : String)
    (requests : List RequestRecord) (lookup : List RequestGroupRecord) :
    List RequestRecord :=
  requests.filter (fun request => requestBelongsToWorkspace request workspaceId lookup)

/-- `ensureFolderInWorkspace`: lookup plus membership check, throwing the
two folder lookup errors. -/
def ensureFolderInWorkspace (folderId workspaceId : String)
    (lookup : List RequestGroupRecord) : Except String RequestGroupRecord :=
  match lookupFolder lookup folderId with
  | none => .error ("Folder " ++ folderId ++ " not found")
  | some folder =>
    if folderBelongsToWorkspace folder workspaceId lookup then .ok folder
    else .error ("Folder " ++ folderId ++ " does not belong to collection " ++ workspaceId)

/-- `resolveFolderParentId`.  The source checks `!parentId`, so `null`,
`undefined` (both `none` here) and the empty string all normalize to the
workspace id. -/
def resolveFolderParentId (workspaceId : String) (parentId : Option String)
    (lookup : List RequestGroupRecord) : Except String String :=
  match parentId with
  | none => .ok workspaceId
  | some pid =>
    if pid == "" || pid == workspaceId then .ok workspaceId
    else (ensureFolderInWorkspace pid workspaceId lookup).map (fun f => f._id)

/-- `resolveRequestParentId` (delegates to `resolveFolderParentId`). -/
def resolveRequestParentId (workspaceId : String) (folderId : Option String)
    (lookup : List RequestGroupRecord) : Except String String :=
  resolveFolderParentId workspaceId folderId lookup

/-- The `while` loop of `ensureNoFolderCycle`, with explicit fuel.  Walks
upward from `currentId`; hitting `folderId` is the cycle error. -/
def noCycleAux (lookup : List RequestGroupRecord) (folderId : String) :
    Nat → String → List String → Except String Unit
  | 0, _, _ => .ok ()
  | fuel + 1, currentId, visited =>
    if currentId == "" then .ok ()
    else if currentId == folderId then
      .error "Cannot move a folder into itself or its descendants"
    else if visited.contains currentId then .ok ()
    else
      match lookupFolder lookup currentId with
      | none => .ok ()
      | some parentFolder =>
        noCycleAux lookup folderId fuel parentFolder.parentId (currentId :: visited)

/-- `ensureNoFolderCycle`. -/
def ensureNoFolderCycle (folderId parentId : String)
    (lookup : List RequestGroupRecord) : Except String Unit :=
  noCycleAux lookup folderId (walkFuel lookup) parentId []

/-- The worklist loop of `collectDescendantFolderIds`, with explicit fuel.
The JS array-stack pops from the end; the model keeps the stack head-first,
so pushing the children in `values()` order is prepending them reversed.
The JS `Set` is a duplicate-free list in insertion order. -/
def collectDescAux (lookup : List RequestGroupRecord) :
    Nat → List String → List String → List String
  | 0, _, descendants => descendants
  | fuel + 1, stack, descendants =>
    match stack with
    | [] => descendants
    | current :: rest =>
      if descendants.contains current then
        collectDescAux lookup fuel rest descendants
      else
        let children := lookup.filter (fun folder => folder.parentId == current)
        collectDescAux lookup fuel
          ((children.map (fun folder => folder._id)).reverse ++ rest)
          (descendants ++ [current])

/-- Canonical fuel for the worklist walk (proved sufficient in the
fuel-stability theorem). -/
def descFuel (lookup : List RequestGroupRecord) : Nat :=
  (lookup.length + 1) * (lookup.length + 1) + 2

/-- `collectDescendantFolderIds`: the folder itself plus every folder
transitively reachable along child→parent edges pointing into the set. -/
def collectDescendantFolderIds (folderId : String)
    (lookup : List RequestGroupRecord) : List String :=
  collectDescAux lookup (descFuel lookup) [folderId] []

/-! ## External shapes and converters (`src/storage/types.ts`,
`src/storage/converters.ts`) -/

/-- Stand-in for `new Date(millis).toISOString()`: an injective rendering of
the millisecond timestamp (the exact ISO-8601 text is a platform-library
detail no claim inspects). -/
def toIso (millis : Nat) : String :=
  toString millis

/-- `StoredRequest`: the externally visible request shape. -/
structure StoredRequest where
  id : String
  collectionId : String
  name : String
  method : String
  url : String
  headers : List RequestRecordHeader
  body : Option RequestRecordBody
  description : Option String
  folderId : Option String
  preRequestScript : Option String
  afterResponseScript : Option String
  createdAt : String
  updatedAt : String
deriving Repr, DecidableEq

/-- `StoredFolder`. -/
structure StoredFolder where
  id : String
  name : String
  description : Option String
  parentId : String
  createdAt : String
  updatedAt : String
deriving Repr, DecidableEq

/-- `StoredEnvironment`.  `vars` models the `variables` field (that name is
a reserved word in Lean). -/
structure StoredEnvironment where
  id : String
  name : String
  vars : List (String × JsonValue)
  createdAt : String
  updatedAt : String
deriving Repr, DecidableEq

/-- `StoredCollection`. -/
structure StoredCollection where
  id : String
  name : String
  description : Option String
  environment : StoredEnvironment
  folders : List StoredFolder
  requests : List StoredRequest
  createdAt : String
  updatedAt : String
deriving Repr, DecidableEq

/-- `toStoredRequest`: `record.body ?? null` collapses an absent property
and `null` to `null` (`Option.join`); the parent id is surfaced as
`folderId` only when it differs from the collection id. -/
def toStoredRequest (record : RequestRecord) (collectionId : String) :
    StoredRequest :=
  { id := record._id
    collectionId := collectionId
    name := record.name
    method := record.method
    url := record.url
    headers := record.headers.getD []
    body := record.body.join
    description := record.description
    folderId := if record.parentId != collectionId then some record.parentId else none
    preRequestScript := record.preRequestScript
    afterResponseScript := record.afterResponseScript
    createdAt := toIso record.created
    updatedAt := toIso record.modified }

/-- `toStoredEnvironment`. -/
def toStoredEnvironment (record : EnvironmentRecord) : StoredEnvironment :=
  { id := record._id
    name := record.name
    vars := record.data.getD []
    createdAt := toIso record.created
    updatedAt := toIso record.modified }

/-- `toStoredFolder`: only a non-empty description string survives. -/
def toStoredFolder (record : RequestGroupRecord) : StoredFolder :=
  { id := record._id
    name := record.name
    description :=
      match record.description with
      | some d => if d.length > 0 then some d else none
      | none => none
    parentId := record.parentId
    createdAt := toIso record.created
    updatedAt := toIso record.modified }

/-- `toStoredCollection`. -/
def toStoredCollection (workspace : WorkspaceRecord)
    (environment : EnvironmentRecord) (requests : List RequestRecord)
    (folders : List RequestGroupRecord) : StoredCollection :=
  { id := workspace._id
    name := workspace.name
    description :=
      match workspace.description with
      | some d => if d.length > 0 then some d else none
      | none => none
    environment := toStoredEnvironment environment
    folders := folders.map toStoredFolder
    requests := requests.map (fun request => toStoredRequest request workspace._id)
    createdAt := toIso workspace.created
    updatedAt := toIso workspace.modified }

/-! ## Shared helpers for the operations -/

/-- The whitespace class of JavaScript `String.prototype.trim` (the ASCII
part, which is all that can occur around JSON text or script sources
here). -/
def isJsWhitespace (c : Char) : Bool :=
  c == ' ' || c == '\t' || c == '\n' || c == '\r' ||
    c == '\x0b' || c == '\x0c'

/-- `String.prototype.trim` on a character list. -/
def trimChars (l : List Char) : List Char :=
  ((l.dropWhile isJsWhitespace).reverse.dropWhile isJsWhitespace).reverse

/-- `String.prototype.trim` on a string. -/
def jsTrim (s : String) : String :=
  ⟨trimChars s.data⟩

/-- The result of an operation together with the store as left behind by
the file writes performed before returning or throwing. -/
abbrev OpResult (α : Type) := Except String α × Store

/-- Replace the first element satisfying `p` (the JS pattern of mutating
the object returned by `Array.find` in place and rewriting the file). -/
def updateFirst (p : α → Bool) (f : α → α) : List α → List α
  | [] => []
  | x :: xs => if p x then f x :: xs else x :: updateFirst p f xs

/-- Remove the first element satisfying `p` (`findIndex` + `splice(i, 1)`). -/
def removeFirst (p : α → Bool) : List α → List α
  | [] => []
  | x :: xs => if p x then xs else x :: removeFirst p xs

/-- JS object property assignment on the variable map: overwrite an existing
key in place, else append. -/
def objSet (m : List (String × JsonValue)) (k : String) (v : JsonValue) :
    List (String × JsonValue) :=
  if m.any (fun p => p.1 == k) then
    m.map (fun p => if p.1 == k then (k, v) else p)
  else m ++ [(k, v)]

/-- `loadWorkspace` (`src/storage/collections.ts`): find the workspace by id
in the filtered read, else throw; callers keep the whole read list (`all`)
for the later modified-bump rewrite. -/
def loadWorkspace (s : Store) (workspaceId : String) :
    Except String WorkspaceRecord :=
  match (readWorkspaceRecords s).find? (fun r => r._id == workspaceId) with
  | none => .error ("Collection " ++ workspaceId ++ " not found")
  | some workspace => .ok workspace

/-- The `workspace.modified = timestamp; writeWorkspaceRecords(all)` epilogue
every mutation ends with: `all` is the filtered read of the workspace file
and the found (first-matching) record is mutated in place. -/
def bumpWorkspace (s : Store) (workspaceId : String) (timestamp : Nat) : Store :=
  writeWorkspaceRecords s
    (updateFirst (fun r => r._id == workspaceId)
      (fun r => { r with modified := timestamp })
      (readWorkspaceRecords s))

/-! ## Folder operations (`src/storage/folders.ts`) -/

/-- `CreateFolderInput` (`parentId?: string | null`; the call site passes
`input.parentId ?? undefined`, so `null` and `undefined` coincide). -/
structure CreateFolderInput where
  collectionId : String
  name : String
  description : Option String
  parentId : Option String
deriving Repr, DecidableEq

/-- `UpdateFolderInput`: the outer `Option` is property presence
(`undefined` = leave alone), the inner is `string | null`. -/
structure UpdateFolderInput where
  collectionId : String
  folderId : String
  name : Option String
  description : Option (Option String)
  parentId : Option (Option String)
deriving Repr, DecidableEq

/-- `DeleteFolderInput` / `GetFolderInput`. -/
structure FolderRefInput where
  collectionId : String
  folderId : String
deriving Repr, DecidableEq

/-- `buildFolderRecord`: the fresh `createId("fld")` value is the `newId`
parameter. -/
def buildFolderRecord (parentId : String) (input : CreateFolderInput)
    (newId : String) (timestamp : Nat) : RequestGroupRecord :=
  { _id := newId
    type := "RequestGroup"
    parentId := parentId
    modified := timestamp
    created := timestamp
    name := input.name
    description := input.description
    environment := some []
    environmentPropertyOrder := none
    metaSortKey := some (-(timestamp : Int))
    environmentType := some "kv" }

/-- `createFolder`. -/
def createFolder (input : CreateFolderInput) (newId : String) (timestamp : Nat)
    (s : Store) : OpResult StoredFolder :=
  match loadWorkspace s input.collectionId with
  | .error e => (.error e, s)
  | .ok workspace =>
    let folders := readRequestGroupRecords s
    let folderLookup := buildFolderLookup folders
    match resolveFolderParentId workspace._id input.parentId folderLookup with
    | .error e => (.error e, s)
    | .ok parentId =>
      let folderRecord := buildFolderRecord parentId input newId timestamp
      let s₁ := writeRequestGroupRecords s (folders ++ [folderRecord])
      (.ok (toStoredFolder folderRecord), bumpWorkspace s₁ workspace._id timestamp)

/-- `updateFolder`.  The source also refreshes the lookup map entry after
mutating the found record; the map is not consulted again before the write,
so that step has no further effect here. -/
def updateFolder (input : UpdateFolderInput) (timestamp : Nat) (s : Store) :
    OpResult StoredFolder :=
  match loadWorkspace s input.collectionId with
  | .error e => (.error e, s)
  | .ok workspace =>
    let folders := readRequestGroupRecords s
    let folderLookup := buildFolderLookup folders
    match folders.find? (fun record => record._id == input.folderId) with
    | none => (.error ("Folder " ++ input.folderId ++ " not found"), s)
    | some folder =>
      if !(folderBelongsToWorkspace folder workspace._id folderLookup) then
        (.error ("Folder " ++ input.folderId ++ " not found"), s)
      else
        let parentStep : Except String String :=
          match input.parentId with
          | none => .ok folder.parentId
          | some requested =>
            match resolveFolderParentId workspace._id requested folderLookup with
            | .error e => .error e
            | .ok newParentId =>
              if newParentId != workspace._id then
                match ensureNoFolderCycle folder._id newParentId folderLookup with
                | .error e => .error e
                | .ok _ => .ok newParentId
              else .ok newParentId
        match parentStep with
        | .error e => (.error e, s)
        | .ok newParentId =>
          let folder' :=
            { folder with
              parentId := newParentId
              name := input.name.getD folder.name
              description :=
                match input.description with
                | none => folder.description
                | some d => d
              modified := timestamp
              metaSortKey := some (-(timestamp : Int)) }
          let s₁ := writeRequestGroupRecords s
            (updateFirst (fun record => record._id == input.folderId)
              (fun _ => folder') folders)
          (.ok (toStoredFolder folder'), bumpWorkspace s₁ workspace._id timestamp)

/-- `deleteFolder`: compute the descendant set, filter both the folder and
the request files by it, write both, bump the workspace. -/
def deleteFolder (input : FolderRefInput) (timestamp : Nat) (s : Store) :
    OpResult Unit :=
  match loadWorkspace s input.collectionId with
  | .error e => (.error e, s)
  | .ok workspace =>
    let folders := readRequestGroupRecords s
    let folderLookup := buildFolderLookup folders
    match lookupFolder folderLookup input.folderId with
    | none => (.error ("Folder " ++ input.folderId ++ " not found"), s)
    | some folder =>
      if !(folderBelongsToWorkspace folder workspace._id folderLookup) then
        (.error ("Folder " ++ input.folderId ++ " not found"), s)
      else
        let requests := readRequestRecords s
        let descendantIds := collectDescendantFolderIds folder._id folderLookup
        let remainingFolders :=
          folders.filter (fun record => !(descendantIds.contains record._id))
        let remainingRequests :=
          requests.filter (fun record => !(descendantIds.contains record.parentId))
        let s₁ := writeRequestGroupRecords s remainingFolders
        let s₂ := writeRequestRecords s₁ remainingRequests
        (.ok (), bumpWorkspace s₂ workspace._id timestamp)

/-- `getFolder`. -/
def getFolder (input : FolderRefInput) (s : Store) : OpResult StoredFolder :=
  match loadWorkspace s input.collectionId with
  | .error e => (.error e, s)
  | .ok workspace =>
    let folders := readRequestGroupRecords s
    let folderLookup := buildFolderLookup folders
    match lookupFolder folderLookup input.folderId with
    | none => (.error ("Folder " ++ input.folderId ++ " not found"), s)
    | some folder =>
      if !(folderBelongsToWorkspace folder workspace._id folderLookup) then
        (.error ("Folder " ++ input.folderId ++ " not found"), s)
      else
        (.ok (toStoredFolder folder), s)

/-! ## Request operations (`src/storage/requests.ts`) -/

/-- `CreateRequestInput` (`folderId?: string | null` is collapsed by the
call site's `?? undefined`; `body?: StoredRequestBody | null` keeps the
absent/`null` distinction). -/
structure CreateRequestInput where
  collectionId : String
  name : String
  method : String
  url : String
  headers : Option (List RequestRecordHeader)
  body : Option (Option RequestRecordBody)
  description : Option String
  folderId : Option String
  preRequestScript : Option String
  afterResponseScript : Option String
deriving Repr, DecidableEq

/-- `UpdateRequestInput`: the outer `Option` is property presence
(`undefined` = leave the field alone), the inner is the `... | null` value. -/
structure UpdateRequestInput where
  collectionId : String
  requestId : String
  name : Option String
  method : Option String
  url : Option String
  headers : Option (List RequestRecordHeader)
  body : Option (Option RequestRecordBody)
  description : Option (Option String)
  folderId : Option (Option String)
  preRequestScript : Option (Option String)
  afterResponseScript : Option (Option String)
deriving Repr, DecidableEq

/-- `DeleteRequestInput` / `GetRequestInput`. -/
structure RequestRefInput where
  collectionId : String
  requestId : String
deriving Repr, DecidableEq

/-- `buildRequestRecord`: method upper-cased, `body ?? null`, script fields
present only when non-empty after trimming. -/
def buildRequestRecord (parentId : String) (input : CreateRequestInput)
    (newId : String) (timestamp : Nat) : RequestRecord :=
  let base : RequestRecord :=
    { _id := newId
      type := "Request"
      parentId := parentId
      modified := timestamp
      created := timestamp
      url := input.url
      name := input.name
      description := input.description
      method := input.method.toUpper
      headers := some (input.headers.getD [])
      body := some input.body.join
      preRequestScript := none
      afterResponseScript := none
      parameters := some []
      authentication := some []
      metaSortKey := some (-(timestamp : Int))
      isPrivate := some false
      settingStoreCookies := some true
      settingSendCookies := some true
      settingDisableRenderRequestBody := some false
      settingEncodeUrl := some true
      settingRebuildPath := some true
      settingFollowRedirects := some "global" }
  let base :=
    match input.preRequestScript with
    | some scr =>
      if scr != "" && (jsTrim scr).length > 0 then { base with preRequestScript := some scr }
      else base
    | none => base
  match input.afterResponseScript with
  | some scr =>
    if scr != "" && (jsTrim scr).length > 0 then { base with afterResponseScript := some scr }
    else base
  | none => base

/-- `createRequest`. -/
def createRequest (input : CreateRequestInput) (newId : String) (timestamp : Nat)
    (s : Store) : OpResult StoredRequest :=
  match loadWorkspace s input.collectionId with
  | .error e => (.error e, s)
  | .ok workspace =>
    let requestGroups := readRequestGroupRecords s
    let folderLookup := buildFolderLookup requestGroups
    match resolveRequestParentId workspace._id input.folderId folderLookup with
    | .error e => (.error e, s)
    | .ok parentId =>
      let requestRecord := buildRequestRecord parentId input newId timestamp
      let requests := readRequestRecords s
      let s₁ := writeRequestRecords s (requests ++ [requestRecord])
      (.ok (toStoredRequest requestRecord workspace._id),
        bumpWorkspace s₁ workspace._id timestamp)

/-- The field-by-field mutation block of `updateRequest` applied to the
found record: `undefined` leaves a field alone; `null` (or, for the script
fields, a string that trims to empty) deletes the property. -/
def applyRequestUpdate (input : UpdateRequestInput) (newParentId : String)
    (request : RequestRecord) : RequestRecord :=
  let request :=
    match input.folderId with
    | some _ => { request with parentId := newParentId }
    | none => request
  let request :=
    match input.name with
    | some n => { request with name := n }
    | none => request
  let request :=
    match input.method with
    | some m => { request with method := m.toUpper }
    | none => request
  let request :=
    match input.url with
    | some u => { request with url := u }
    | none => request
  let request :=
    match input.headers with
    | some hs => { request with headers := some hs }
    | none => request
  let request :=
    match input.body with
    | some b => { request with body := some b }
    | none => request
  let request :=
    match input.description with
    | some d => { request with description := d }
    | none => request
  let request :=
    match input.preRequestScript with
    | some scr =>
      match scr with
      | none => { request with preRequestScript := none }
      | some t =>
        if (jsTrim t).length == 0 then { request with preRequestScript := none }
        else { request with preRequestScript := some t }
    | none => request
  match input.afterResponseScript with
  | some scr =>
    match scr with
    | none => { request with afterResponseScript := none }
    | some t =>
      if (jsTrim t).length == 0 then { request with afterResponseScript := none }
      else { request with afterResponseScript := some t }
  | none => request

/-- `updateRequest`. -/
def updateRequest (input : UpdateRequestInput) (timestamp : Nat) (s : Store) :
    OpResult StoredRequest :=
  match loadWorkspace s input.collectionId with
  | .error e => (.error e, s)
  | .ok workspace =>
    let requestGroups := readRequestGroupRecords s
    let folderLookup := buildFolderLookup requestGroups
    let requests := readRequestRecords s
    match requests.find? (fun record => record._id == input.requestId) with
    | none => (.error ("Request " ++ input.requestId ++ " not found"), s)
    | some request =>
      if !(requestBelongsToWorkspace request workspace._id folderLookup) then
        (.error ("Request " ++ input.requestId ++ " not found"), s)
      else
        let parentStep : Except String String :=
          match input.folderId with
          | none => .ok request.parentId
          | some requested =>
            resolveRequestParentId workspace._id requested folderLookup
        match parentStep with
        | .error e => (.error e, s)
        | .ok newParentId =>
          let request' :=
            { applyRequestUpdate input newParentId request with modified := timestamp }
          let s₁ := writeRequestRecords s
            (updateFirst (fun record => record._id == input.requestId)
              (fun _ => request') requests)
          (.ok (toStoredRequest request' workspace._id),
            bumpWorkspace s₁ workspace._id timestamp)

/-- `deleteRequest` (`findIndex` + `splice` = remove the first match, after
the membership check on the found record). -/
def deleteRequest (input : RequestRefInput) (timestamp : Nat) (s : Store) :
    OpResult Unit :=
  match loadWorkspace s input.collectionId with
  | .error e => (.error e, s)
  | .ok workspace =>
    let requestGroups := readRequestGroupRecords s
    let folderLookup := buildFolderLookup requestGroups
    let requests := readRequestRecords s
    match requests.find? (fun record => record._id == input.requestId) with
    | none => (.error ("Request " ++ input.requestId ++ " not found"), s)
    | some request =>
      if !(requestBelongsToWorkspace request workspace._id folderLookup) then
        (.error ("Request " ++ input.requestId ++ " not found"), s)
      else
        let s₁ := writeRequestRecords s
          (removeFirst (fun record => record._id == input.requestId) requests)
        (.ok (), bumpWorkspace s₁ workspace._id timestamp)

/-- `getRequest`. -/
def getRequest (input : RequestRefInput) (s : Store) : OpResult StoredRequest :=
  match loadWorkspace s input.collectionId with
  | .error e => (.error e, s)
  | .ok workspace =>
    let requestGroups := readRequestGroupRecords s
    let folderLookup := buildFolderLookup requestGroups
    let requests := readRequestRecords s
    match requests.find? (fun record => record._id == input.requestId) with
    | none => (.error ("Request " ++ input.requestId ++ " not found"), s)
    | some request =>
      if !(requestBelongsToWorkspace request workspace._id folderLookup) then
        (.error ("Request " ++ input.requestId ++ " not found"), s)
      else
        (.ok (toStoredRequest request workspace._id), s)

/-! ## Environment operations (`src/storage/environments.ts`) -/

/-- `SetEnvironmentVariableInput`. -/
structure SetEnvironmentVariableInput where
  collectionId : String
  key : String
  value : JsonValue
deriving Repr, DecidableEq

/-- `getEnvironment`: find the (first) environment parented at the
workspace; absent means the not-found error — no lazy creation here. -/
def getEnvironment (collectionId : String) (s : Store) :
    OpResult StoredEnvironment :=
  match loadWorkspace s collectionId with
  | .error e => (.error e, s)
  | .ok workspace =>
    let environments := readEnvironmentRecords s
    match environments.find? (fun record => record.parentId == workspace._id) with
    | none =>
      (.error ("Environment for collection " ++ collectionId ++ " not found"), s)
    | some environment => (.ok (toStoredEnvironment environment), s)

/-- `setEnvironmentVariable`: read-modify-write of the variable map of the
found environment (`environment.data || {}`), then bump both timestamps. -/
def setEnvironmentVariable (input : SetEnvironmentVariableInput)
    (timestamp : Nat) (s : Store) : OpResult StoredEnvironment :=
  match loadWorkspace s input.collectionId with
  | .error e => (.error e, s)
  | .ok workspace =>
    let environments := readEnvironmentRecords s
    match environments.find? (fun record => record.parentId == workspace._id) with
    | none =>
      (.error ("Environment for collection " ++ input.collectionId ++ " not found"), s)
    | some environment =>
      let data := environment.data.getD []
      let environment' :=
        { environment with data := some (objSet data input.key input.value)
                           modified := timestamp }
      let s₁ := writeEnvironmentRecords s
        (updateFirst (fun record => record.parentId == workspace._id)
          (fun _ => environment') environments)
      (.ok (toStoredEnvironment environment'),
        bumpWorkspace s₁ workspace._id timestamp)

/-- `getEnvironmentVariable`: `environment.data?.[key]`. -/
def getEnvironmentVariable (collectionId key : String) (s : Store) :
    OpResult (Option JsonValue) :=
  match loadWorkspace s collectionId with
  | .error e => (.error e, s)
  | .ok workspace =>
    let environments := readEnvironmentRecords s
    match environments.find? (fun record => record.parentId == workspace._id) with
    | none =>
      (.error ("Environment for collection " ++ collectionId ++ " not found"), s)
    | some environment =>
      (.ok ((environment.data.getD []).lookup key), s)

/-! ## Collection operations and bootstrap (`src/storage/collections.ts`)

`ensureEnvironmentForWorkspace` draws a fresh id and a timestamp only when
it creates; the callers that may create several environments therefore take
a generator `gen : Nat → String × Nat` supplying the values for the n-th
creation. -/

/-- `buildEnvironmentRecord` (`src/storage/db.ts`); the fresh
`createId("env")` value is the `newId` parameter. -/
def buildEnvironmentRecord (workspaceId : String) (newId : String)
    (timestamp : Nat) : EnvironmentRecord :=
  { _id := newId
    type := "Environment"
    parentId := workspaceId
    modified := timestamp
    created := timestamp
    name := DEFAULT_ENVIRONMENT_NAME
    data := some []
    dataPropertyOrder := none
    color := none
    isPrivate := some false
    metaSortKey := some (timestamp : Int)
    environmentType := some "kv" }

/-- `ensureEnvironmentForWorkspace`: return the existing (first) environment
parented at the workspace, or push a freshly built one, flagging `updated`. -/
def ensureEnvironmentForWorkspace (workspaceId : String)
    (environments : List EnvironmentRecord) (newId : String) (timestamp : Nat) :
    EnvironmentRecord × List EnvironmentRecord × Bool :=
  match environments.find? (fun record => record.parentId == workspaceId) with
  | some existing => (existing, environments, false)
  | none =>
    let environment := buildEnvironmentRecord workspaceId newId timestamp
    (environment, environments ++ [environment], true)

/-- One workspace step of the `ensureSampleData` loop: skip non-collection
scopes, otherwise lazily create the environment, counting creations so the
generator supplies fresh values. -/
def essStep (gen : Nat → String × Nat)
    (acc : List EnvironmentRecord × Nat × Bool)
    (workspace : WorkspaceRecord) : List EnvironmentRecord × Nat × Bool :=
  if workspace.scope != COLLECTION_SCOPE then acc
  else
    let (newId, timestamp) := gen acc.2.1
    let r := ensureEnvironmentForWorkspace workspace._id acc.1 newId timestamp
    if r.2.2 then (r.2.1, acc.2.1 + 1, true) else (r.2.1, acc.2.1, acc.2.2)

/-- `ensureSampleData`: for every collection-scoped workspace, lazily create
a missing base environment; one batched environment-file write at the end,
only if anything was created.  The returned flag records whether that write
happened. -/
def ensureSampleData (gen : Nat → String × Nat) (s : Store) : Store × Bool :=
  let workspaces := readWorkspaceRecords s
  if workspaces.length == 0 then (s, false)
  else
    let folded := workspaces.foldl (essStep gen) (readEnvironmentRecords s, 0, false)
    if folded.2.2 then (writeEnvironmentRecords s folded.1, true) else (s, false)

/-- The number of environment records in `envs` parented at `wid`. -/
def countEnvsFor (wid : String) (envs : List EnvironmentRecord) : Nat :=
  (envs.filter (fun e => e.parentId == wid)).length

/-- The workspace file as every successful mutation leaves it: the first
record with the mutated workspace's id gets `modified := timestamp`, every
other record and every other field survives verbatim. -/
def bumpedWorkspaces (s : Store) (wid : String) (timestamp : Nat) :
    List WorkspaceRecord :=
  updateFirst (fun r => r._id == wid) (fun r => { r with modified := timestamp })
    (readWorkspaceRecords s)

/-- One workspace step of the `listCollections` loop: skip non-collection
scopes, otherwise lazily create the environment and assemble the external
collection shape. -/
def lcStep (gen : Nat → String × Nat) (requests : List RequestRecord)
    (requestGroups folderLookup : List RequestGroupRecord)
    (acc : List StoredCollection × List EnvironmentRecord × Nat × Bool)
    (workspace : WorkspaceRecord) :
    List StoredCollection × List EnvironmentRecord × Nat × Bool :=
  if workspace.scope != COLLECTION_SCOPE then acc
  else
    let (newId, timestamp) := gen acc.2.2.1
    let r := ensureEnvironmentForWorkspace workspace._id acc.2.1 newId timestamp
    let collectionFolders :=
      collectFoldersForWorkspace workspace._id requestGroups folderLookup
    let collectionRequests :=
      collectRequestsForWorkspace workspace._id requests folderLookup
    (acc.1 ++ [toStoredCollection workspace r.1 collectionRequests
        collectionFolders],
      r.2.1, (if r.2.2 then acc.2.2.1 + 1 else acc.2.2.1), acc.2.2.2 || r.2.2)

/-- `listCollections`: assemble the external shape for every
collection-scoped workspace in on-disk order, lazily creating missing
environments, batched into one environment-file write at the end. -/
def listCollections (gen : Nat → String × Nat) (s : Store) :
    List StoredCollection × Store :=
  let workspaces := readWorkspaceRecords s
  if workspaces.length == 0 then ([], s)
  else
    let requests := readRequestRecords s
    let requestGroups := readRequestGroupRecords s
    let folderLookup := buildFolderLookup requestGroups
    let folded := workspaces.foldl (lcStep gen requests requestGroups folderLookup)
      ([], readEnvironmentRecords s, 0, false)
    (folded.1, if folded.2.2.2 then writeEnvironmentRecords s folded.2.1 else s)

/-- `getCollection`: absence is `none`, not an error; a missing environment
is lazily created and written back. -/
def getCollection (collectionId : String) (gen : Nat → String × Nat)
    (s : Store) : Option StoredCollection × Store :=
  let workspaces := readWorkspaceRecords s
  match workspaces.find? (fun record =>
      record._id == collectionId && record.scope == COLLECTION_SCOPE) with
  | none => (none, s)
  | some workspace =>
    let requests := readRequestRecords s
    let requestGroups := readRequestGroupRecords s
    let environments := readEnvironmentRecords s
    let folderLookup := buildFolderLookup requestGroups
    let (environment, envs', updated) :=
      ensureEnvironmentForWorkspace workspace._id environments (gen 0).1 (gen 0).2
    let s₁ := if updated then writeEnvironmentRecords s envs' else s
    let collectionFolders :=
      collectFoldersForWorkspace workspace._id requestGroups folderLookup
    let collectionRequests :=
      collectRequestsForWorkspace workspace._id requests folderLookup
    (some (toStoredCollection workspace environment collectionRequests
        collectionFolders), s₁)

/-! ## Record codec (`readNdjsonRecords` / `writeNdjsonRecords`,
`src/storage/db.ts`)

File contents are modelled as `Option (List Char)`: `none` is a missing
file (the ENOENT branch).  `JSON.stringify`/`JSON.parse` are the platform
JSON library, passed in as an `encode`/`decode` pair. -/

/-- `raw.split(/\r?\n/)`: a line break is `"\n"` or `"\r\n"`; a carriage
return not followed by a newline is ordinary content. -/
def splitLinesAux : List Char → List Char → List (List Char)
  | [], acc => [acc.reverse]
  | '\n' :: rest, acc => acc.reverse :: splitLinesAux rest []
  | '\r' :: '\n' :: rest, acc => acc.reverse :: splitLinesAux rest []
  | '\r' :: rest, acc => splitLinesAux rest ('\r' :: acc)
  | c :: rest, acc => splitLinesAux rest (c :: acc)

/-- `raw.split(/\r?\n/)`. -/
def splitLines (raw : List Char) : List (List Char) :=
  splitLinesAux raw []

/-- The `.map(line => JSON.parse(line))` step: the first line that fails to
parse aborts the whole read (the `CorruptStoreError` of the design). -/
def parseAll (decode : List Char → Option α) :
    List (List Char) → Except String (List α)
  | [] => .ok []
  | l :: ls =>
    match decode l with
    | none => .error "SyntaxError: unexpected token in JSON"
    | some r => (parseAll decode ls).map (fun rs => r :: rs)

/-- `readNdjsonRecords`: a missing file reads as the empty list; otherwise
split into lines, trim, drop blank lines, parse each line. -/
def readNdjsonRecords (decode : List Char → Option α)
    (file : Option (List Char)) : Except String (List α) :=
  match file with
  | none => .ok []
  | some raw =>
    parseAll decode
      (((splitLines raw).map trimChars).filter (fun l => l.length > 0))

/-- `records.map(JSON.stringify).join("\n")`. -/
def joinLines : List (List Char) → List Char
  | [] => []
  | [l] => l
  | l :: ls => l ++ '\n' :: joinLines ls

/-- The full contents `writeNdjsonRecords` writes: one record per line,
with a trailing newline only when the joined content is non-empty. -/
def writeNdjsonContent (encode : α → List Char) (records : List α) :
    List Char :=
  let content := joinLines (records.map encode)
  if content.length > 0 then content ++ ['\n'] else []

/-- `writeNdjsonRecords`: whole-file replacement. -/
def writeNdjsonRecords (encode : α → List Char) (records : List α) :
    Option (List Char) :=
  some (writeNdjsonContent encode records)

/-! ## Concrete records used by witnesses and counterexamples -/

/-- A concrete collection-scoped workspace. -/
def wrk1 : WorkspaceRecord :=
  ⟨"wrk_1", "Workspace", "proj_1", 5, 5, "W", none, "collection"⟩

/-- A second concrete collection-scoped workspace. -/
def wrk2 : WorkspaceRecord :=
  ⟨"wrk_2", "Workspace", "proj_1", 5, 5, "V", none, "collection"⟩

/-- A concrete folder belonging to `wrk2`, foreign to `wrk1`. -/
def fldW2 : RequestGroupRecord :=
  ⟨"fld_w2", "RequestGroup", "wrk_2", 3, 3, "F2", none, some [], none,
    some (-3), some "kv"⟩

/-- A concrete folder parented directly at `wrk1`. -/
def fldA : RequestGroupRecord :=
  ⟨"fld_a", "RequestGroup", "wrk_1", 3, 3, "A", none, some [], none,
    some (-3), some "kv"⟩

/-- A concrete environment parented at `wrk1`. -/
def env1 : EnvironmentRecord :=
  ⟨"env_1", "Environment", "wrk_1", 5, 5, "Base Environment", some [], none,
    none, some false, some 5, some "kv"⟩

/-- A concrete folder parented under `fldA`. -/
def fldB : RequestGroupRecord :=
  ⟨"fld_b", "RequestGroup", "fld_a", 3, 3, "B", none, some [], none,
    some (-3), some "kv"⟩

/-- A concrete folder parented under `fldB`. -/
def fldC : RequestGroupRecord :=
  ⟨"fld_c", "RequestGroup", "fld_b", 3, 3, "C", none, some [], none,
    some (-3), some "kv"⟩

/-- A concrete sibling folder parented directly at `wrk1`. -/
def fldD : RequestGroupRecord :=
  ⟨"fld_d", "RequestGroup", "wrk_1", 3, 3, "D", none, some [], none,
    some (-3), some "kv"⟩

/-- A concrete request record with the given id and parent. -/
def mkReq (id pid : String) : RequestRecord :=
  ⟨id, "Request", pid, 4, 4, "https://example.com", "R", none, "GET",
    some [], some none, none, none, some [], some [], some (-4), some false,
    some true, some true, some false, some true, some true, some "global"⟩

/-- A folder forming a malformed parent cycle with `fldY`. -/
def fldX : RequestGroupRecord :=
  ⟨"fld_x", "RequestGroup", "fld_y", 3, 3, "X", none, some [], none,
    some (-3), some "kv"⟩

/-- A folder forming a malformed parent cycle with `fldX`. -/
def fldY : RequestGroupRecord :=
  ⟨"fld_y", "RequestGroup", "fld_x", 3, 3, "Y", none, some [], none,
    some (-3), some "kv"⟩

/-- A second concrete environment also parented at `wrk1`. -/
def env2 : EnvironmentRecord :=
  ⟨"env_2", "Environment", "wrk_1", 6, 6, "Base Environment", some [], none,
    none, some false, some 6, some "kv"⟩

/-- Concrete line codec used to witness the round-trip theorem: a natural
number rendered in decimal. -/
def natEncode (n : Nat) : List Char :=
  (toString n).data

/-- Concrete line decoder matching `natEncode`. -/
def natDecode (l : List Char) : Option Nat :=
  if l ≠ [] ∧ l.all Char.isDigit then
    some (l.foldl (fun n c => n * 10 + (c.toNat - 48)) 0)
  else none

/-! ## Lemmas about the record codec -/

theorem splitLinesAux_line (e rest acc : List Char) (hn : '\n' ∉ e)
    (hr : '\r' ∉ e) :
    splitLinesAux (e ++ '\n' :: rest) acc =
      (acc.reverse ++ e) :: splitLinesAux rest [] := by
  induction e generalizing acc with
  | nil => simp [splitLinesAux]
  | cons c e' ih =>
    have hcn : c ≠ '\n' := fun h => hn (h ▸ List.mem_cons_self c e')
    have hcr : c ≠ '\r' := fun h => hr (h ▸ List.mem_cons_self c e')
    rw [List.cons_append, splitLinesAux]
    · rw [ih (c :: acc) (fun h => hn (List.mem_cons_of_mem _ h))
        (fun h => hr (List.mem_cons_of_mem _ h))]
      simp
    · exact fun h => hcn h
    · intro r h _
      exact hcr h
    · exact fun h => hcr h

theorem splitLines_joinLines (es : List (List Char))
    (h : ∀ e ∈ es, '\n' ∉ e ∧ '\r' ∉ e) (hne : es ≠ []) :
    splitLines (joinLines es ++ ['\n']) = es ++ [[]] := by
  induction es with
  | nil => exact absurd rfl hne
  | cons e es ih =>
    have he := h e (List.mem_cons_self e es)
    cases es with
    | nil =>
      show splitLinesAux (e ++ '\n' :: []) [] = [e, []]
      rw [splitLinesAux_line e [] [] he.1 he.2]
      simp [splitLinesAux]
    | cons e2 es2 =>
      show splitLinesAux ((e ++ '\n' :: joinLines (e2 :: es2)) ++ ['\n']) [] = _
      rw [List.append_assoc, List.cons_append]
      rw [splitLinesAux_line e _ [] he.1 he.2]
      have := ih (fun x hx => h x (List.mem_cons_of_mem _ hx)) (by simp)
      rw [show splitLinesAux (joinLines (e2 :: es2) ++ ['\n']) [] =
        splitLines (joinLines (e2 :: es2) ++ ['\n']) from rfl, this]
      simp

theorem parseAll_map_encode {α : Type} (encode : α → List Char)
    (decode : List Char → Option α) (records : List α)
    (h : ∀ r ∈ records, decode (encode r) = some r) :
    parseAll decode (records.map encode) = .ok records := by
  induction records with
  | nil => rfl
  | cons r rs ih =>
    have hr := h r (List.mem_cons_self r rs)
    simp only [List.map_cons, parseAll, hr]
    rw [ih (fun x hx => h x (List.mem_cons_of_mem _ hx))]
    rfl

theorem joinLines_cons_length_pos (e : List Char) (es : List (List Char))
    (he : e ≠ []) : 0 < (joinLines (e :: es)).length := by
  cases es with
  | nil => simpa [joinLines, List.length_pos] using he
  | cons e2 es2 => simp [joinLines, List.length_pos]

/-- **C6** (confirmed): writing any record list with the record codec and
reading the file back yields the same list, in the same order, duplicates
preserved; reading a missing file yields the empty list.  The hypotheses
state what the platform JSON codec guarantees for each written record: the
encoded line decodes back to the record, contains no line break, is stable
under trimming and is non-empty. -/
theorem ndjson_write_read_round_trip {α : Type} (encode : α → List Char)
    (decode : List Char → Option α) (records : List α)
    (h : ∀ r ∈ records, decode (encode r) = some r ∧ '\n' ∉ encode r ∧
      '\r' ∉ encode r ∧ trimChars (encode r) = encode r ∧ encode r ≠ []) :
    readNdjsonRecords decode (writeNdjsonRecords encode records) =
        .ok records ∧
      readNdjsonRecords decode (none : Option (List Char)) =
        .ok ([] : List α) := by
  refine ⟨?_, rfl⟩
  cases records with
  | nil =>
    show parseAll decode _ = _
    norm_num [writeNdjsonContent, joinLines, splitLines, splitLinesAux,
      trimChars, parseAll]
  | cons r rs =>
    have hr := h r (List.mem_cons_self r rs)
    show readNdjsonRecords decode
      (some (writeNdjsonContent encode (r :: rs))) = .ok (r :: rs)
    have hpos : 0 < (joinLines ((r :: rs).map encode)).length := by
      rw [List.map_cons]
      exact joinLines_cons_length_pos _ _ hr.2.2.2.2
    have hcontent : writeNdjsonContent encode (r :: rs) =
        joinLines ((r :: rs).map encode) ++ ['\n'] := by
      unfold writeNdjsonContent
      rw [if_pos hpos]
    rw [hcontent]
    show parseAll decode _ = _
    rw [splitLines_joinLines ((r :: rs).map encode)
      (by
        intro e hemem
        obtain ⟨x, hx, rfl⟩ := List.mem_map.mp hemem
        exact ⟨(h x hx).2.1, (h x hx).2.2.1⟩)
      (by simp)]
    have hmap : ((r :: rs).map encode ++ [[]]).map trimChars =
        (r :: rs).map encode ++ [[]] := by
      rw [List.map_append]
      congr 1
      rw [List.map_map]
      apply List.map_congr_left
      intro x hx
      exact (h x hx).2.2.2.1
    rw [hmap]
    have hfilter : (((r :: rs).map encode ++ [[]]).filter
        (fun l => l.length > 0)) = (r :: rs).map encode := by
      rw [List.filter_append]
      have h1 : ((r :: rs).map encode).filter (fun l => l.length > 0) =
          (r :: rs).map encode := by
        rw [List.filter_eq_self]
        intro e hemem
        obtain ⟨x, hx, rfl⟩ := List.mem_map.mp hemem
        simpa [List.length_pos] using (h x hx).2.2.2.2
      rw [h1]
      simp
    rw [hfilter]
    exact parseAll_map_encode encode decode (r :: rs)
      (fun x hx => (h x hx).1)

/-- Witness for the round-trip theorem: a concrete record list (with a
duplicate) under the concrete decimal codec. -/
theorem ndjson_write_read_round_trip_witness :
    (∀ r ∈ [7, 7, 42], natDecode (natEncode r) = some r ∧
      '\n' ∉ natEncode r ∧ '\r' ∉ natEncode r ∧
      trimChars (natEncode r) = natEncode r ∧ natEncode r ≠ []) ∧
    readNdjsonRecords natDecode (writeNdjsonRecords natEncode [7, 7, 42]) =
      .ok [7, 7, 42] ∧
    readNdjsonRecords natDecode (none : Option (List Char)) =
      .ok ([] : List Nat) :=
  have h : ∀ r ∈ [7, 7, 42], natDecode (natEncode r) = some r ∧
      '\n' ∉ natEncode r ∧ '\r' ∉ natEncode r ∧
      trimChars (natEncode r) = natEncode r ∧ natEncode r ≠ [] := by decide
  ⟨h, (ndjson_write_read_round_trip natEncode natDecode [7, 7, 42] h).1,
    (ndjson_write_read_round_trip natEncode natDecode [7, 7, 42] h).2⟩

/-! ## Parent resolution (claim C8) -/

/-- **C8** counterexample: the source checks `!parentId`, so the empty
string — which is neither `undefined`, `null` nor the workspace id, and
names no existing folder — normalizes to the workspace id instead of
failing with a folder-not-found error as the claim demands. -/
theorem resolveFolderParentId_empty_string_cex :
    resolveFolderParentId "wrk_1" (some "") [] = .ok "wrk_1" ∧
    ("" : String) ≠ "wrk_1" ∧
    lookupFolder [] "" = none :=
  ⟨rfl, by decide, rfl⟩

/-- **C8** (amended): a requested parent id that is `undefined`/`null`
(`none`), the empty string, or equal to the workspace id resolves to the
workspace id; any other requested id resolves to the folder's id when a
folder with that id exists and belongs to the workspace, and otherwise
fails with a folder lookup error. -/
theorem resolveFolderParentId_spec (workspaceId : String)
    (lookup : List RequestGroupRecord) (requested : Option String) :
    (requested = none →
      resolveFolderParentId workspaceId requested lookup = .ok workspaceId) ∧
    (∀ pid, requested = some pid → (pid = "" ∨ pid = workspaceId) →
      resolveFolderParentId workspaceId requested lookup = .ok workspaceId) ∧
    (∀ pid, requested = some pid → pid ≠ "" → pid ≠ workspaceId →
      (∀ f, lookupFolder lookup pid = some f →
        (folderBelongsToWorkspace f workspaceId lookup = true →
          resolveFolderParentId workspaceId requested lookup = .ok f._id) ∧
        (folderBelongsToWorkspace f workspaceId lookup = false →
          resolveFolderParentId workspaceId requested lookup =
            .error ("Folder " ++ pid ++ " does not belong to collection " ++
              workspaceId))) ∧
      (lookupFolder lookup pid = none →
        resolveFolderParentId workspaceId requested lookup =
          .error ("Folder " ++ pid ++ " not found"))) := by
  refine ⟨?_, ?_, ?_⟩
  · rintro rfl
    rfl
  · rintro pid rfl (rfl | rfl)
    · simp [resolveFolderParentId]
    · simp [resolveFolderParentId]
  · rintro pid rfl hne hnw
    have hne' : (pid == "") = false := beq_eq_false_iff_ne.mpr hne
    have hnw' : (pid == workspaceId) = false := beq_eq_false_iff_ne.mpr hnw
    refine ⟨?_, ?_⟩
    · intro f hf
      refine ⟨?_, ?_⟩ <;> intro hb <;>
        simp [resolveFolderParentId, hne', hnw', ensureFolderInWorkspace, hf, hb,
          Except.map]
    · intro hf
      simp [resolveFolderParentId, hne', hnw', ensureFolderInWorkspace, hf,
        Except.map]

/-- Witness for the parent-resolution theorem: all branches exercised on a
one-folder store. -/
theorem resolveFolderParentId_spec_witness :
    resolveFolderParentId "wrk_1" none [fldA] = .ok "wrk_1" ∧
    resolveFolderParentId "wrk_1" (some "wrk_1") [fldA] = .ok "wrk_1" ∧
    resolveFolderParentId "wrk_1" (some "fld_a") [fldA] = .ok "fld_a" ∧
    resolveFolderParentId "wrk_1" (some "fld_b") [fldA] =
      .error "Folder fld_b not found" := by
  refine ⟨?_, ?_, ?_, ?_⟩
  · exact (resolveFolderParentId_spec "wrk_1" [fldA] none).1 rfl
  · exact (resolveFolderParentId_spec "wrk_1" [fldA] (some "wrk_1")).2.1
      "wrk_1" rfl (Or.inr rfl)
  · exact (((resolveFolderParentId_spec "wrk_1" [fldA] (some "fld_a")).2.2
      "fld_a" rfl (by decide) (by decide)).1 fldA rfl).1 rfl
  · exact ((resolveFolderParentId_spec "wrk_1" [fldA] (some "fld_b")).2.2
      "fld_b" rfl (by decide) (by decide)).2 rfl

/-! ## Environment read (claim C5) -/

/-- **C5** counterexample: on a store holding the collection-scoped
workspace `wrk_1` and no environment at all, reading the environment fails
with the not-found error and creates nothing — zero environment records
parented at `wrk_1` exist afterwards, not exactly one. -/
theorem getEnvironment_no_lazy_create_cex :
    wrk1.scope = COLLECTION_SCOPE ∧
    (getEnvironment "wrk_1" ⟨[wrk1], [], [], []⟩).1 =
      .error "Environment for collection wrk_1 not found" ∧
    ((getEnvironment "wrk_1" ⟨[wrk1], [], [], []⟩).2.environments.filter
      (fun e => e.parentId == "wrk_1")).length = 0 :=
  ⟨rfl, rfl, rfl⟩

/-- **C5** (amended): `getEnvironment` does not lazily create.  It returns
the first environment record parented at the workspace when one exists, and
fails with the environment-not-found error — leaving the store untouched —
when none does; lazy creation happens only on the collection read paths and
the bootstrap. -/
theorem getEnvironment_spec (collectionId : String) (s : Store)
    (w : WorkspaceRecord) (hw : loadWorkspace s collectionId = .ok w) :
    ((readEnvironmentRecords s).find? (fun r => r.parentId == w._id) = none →
      getEnvironment collectionId s =
        (.error ("Environment for collection " ++ collectionId ++ " not found"),
          s)) ∧
    (∀ e, (readEnvironmentRecords s).find? (fun r => r.parentId == w._id) =
        some e →
      getEnvironment collectionId s = (.ok (toStoredEnvironment e), s)) := by
  constructor
  · intro hnone
    simp [getEnvironment, hw, hnone]
  · intro e he
    simp [getEnvironment, hw, he]

/-- Witness for the environment-read theorem: both branches on concrete
stores. -/
theorem getEnvironment_spec_witness :
    getEnvironment "wrk_1" ⟨[wrk1], [], [], []⟩ =
      (.error "Environment for collection wrk_1 not found",
        ⟨[wrk1], [], [], []⟩) ∧
    getEnvironment "wrk_1" ⟨[wrk1], [], [], [env1]⟩ =
      (.ok (toStoredEnvironment env1), ⟨[wrk1], [], [], [env1]⟩) := by
  constructor
  · exact (getEnvironment_spec "wrk_1" ⟨[wrk1], [], [], []⟩ wrk1 rfl).1 rfl
  · exact (getEnvironment_spec "wrk_1" ⟨[wrk1], [], [], [env1]⟩ wrk1 rfl).2
      env1 rfl

/-! ## Lemmas about the bootstrap loop (claim C7) -/

theorem essStep_cases (gen : Nat → String × Nat)
    (acc : List EnvironmentRecord × Nat × Bool) (w : WorkspaceRecord) :
    essStep gen acc w = acc ∨
    (acc.1.find? (fun r => r.parentId == w._id) = none ∧
      w.scope = COLLECTION_SCOPE ∧
      essStep gen acc w =
        (acc.1 ++ [buildEnvironmentRecord w._id (gen acc.2.1).1 (gen acc.2.1).2],
          acc.2.1 + 1, true)) := by
  by_cases hs : w.scope = COLLECTION_SCOPE
  · have hs' : (w.scope != COLLECTION_SCOPE) = false := by simp [bne, hs]
    rcases hf : acc.1.find? (fun r => r.parentId == w._id) with _ | e
    · right
      exact ⟨hf, hs, by simp [essStep, hs', ensureEnvironmentForWorkspace, hf]⟩
    · left
      simp [essStep, hs', ensureEnvironmentForWorkspace, hf]
  · left
    have hs' : (w.scope != COLLECTION_SCOPE) = true := by simp [bne, hs]
    simp [essStep, hs']

theorem essStep_mem_mono (gen : Nat → String × Nat)
    (acc : List EnvironmentRecord × Nat × Bool) (w : WorkspaceRecord)
    (e : EnvironmentRecord) (he : e ∈ acc.1) : e ∈ (essStep gen acc w).1 := by
  rcases essStep_cases gen acc w with h | ⟨_, _, h⟩ <;> rw [h]
  · exact he
  · exact List.mem_append_left _ he

theorem essFold_mem_mono (gen : Nat → String × Nat) (L : List WorkspaceRecord) :
    ∀ acc e, e ∈ acc.1 → e ∈ (L.foldl (essStep gen) acc).1 := by
  induction L with
  | nil => exact fun acc e he => he
  | cons w L ih =>
    intro acc e he
    exact ih (essStep gen acc w) e (essStep_mem_mono gen acc w e he)

theorem essFold_exists_env (gen : Nat → String × Nat) (L : List WorkspaceRecord) :
    ∀ acc, ∀ w ∈ L, w.scope = COLLECTION_SCOPE →
      ∃ e ∈ (L.foldl (essStep gen) acc).1, e.parentId = w._id := by
  induction L with
  | nil => intro acc w hw; exact absurd hw (List.not_mem_nil w)
  | cons w0 L ih =>
    intro acc w hw hscope
    rcases List.mem_cons.mp hw with rfl | htail
    · rcases hf : acc.1.find? (fun r => r.parentId == w._id) with _ | e
      · rcases essStep_cases gen acc w with h | ⟨_, _, h⟩
        · -- with `find? = none` and collection scope the step must create
          exfalso
          have hs' : (w.scope != COLLECTION_SCOPE) = false := by simp [bne, hscope]
          have : essStep gen acc w =
              (acc.1 ++ [buildEnvironmentRecord w._id (gen acc.2.1).1 (gen acc.2.1).2],
                acc.2.1 + 1, true) := by
            simp [essStep, hs', ensureEnvironmentForWorkspace, hf]
          rw [h] at this
          have hlen := congrArg (fun p => p.1.length) this
          simp at hlen
        · refine ⟨buildEnvironmentRecord w._id (gen acc.2.1).1 (gen acc.2.1).2,
            ?_, rfl⟩
          apply essFold_mem_mono gen L
          rw [h]
          exact List.mem_append_right _ (List.mem_singleton.mpr rfl)
      · have hmem : e ∈ acc.1 := List.mem_of_find?_eq_some hf
        have hpar : e.parentId = w._id := by
          have := List.find?_some hf
          exact beq_iff_eq.mp this
        exact ⟨e, essFold_mem_mono gen L (essStep gen acc w) e
          (essStep_mem_mono gen acc w e hmem), hpar⟩
    · exact ih (essStep gen acc w0) w htail hscope

theorem essFold_type_env (gen : Nat → String × Nat) (L : List WorkspaceRecord) :
    ∀ acc, (∀ e ∈ acc.1, e.type = "Environment") →
      ∀ e ∈ (L.foldl (essStep gen) acc).1, e.type = "Environment" := by
  induction L with
  | nil => exact fun acc h => h
  | cons w L ih =>
    intro acc h
    apply ih
    rcases essStep_cases gen acc w with hc | ⟨_, _, hc⟩ <;> rw [hc]
    · exact h
    · intro e he
      rcases List.mem_append.mp he with he | he
      · exact h e he
      · rw [List.mem_singleton.mp he]
        rfl

theorem essStep_count_le_one (gen : Nat → String × Nat)
    (acc : List EnvironmentRecord × Nat × Bool) (w : WorkspaceRecord)
    (wid : String) (h : countEnvsFor wid acc.1 ≤ 1) :
    countEnvsFor wid (essStep gen acc w).1 ≤ 1 := by
  rcases essStep_cases gen acc w with hc | ⟨hf, _, hc⟩ <;> rw [hc]
  · exact h
  · unfold countEnvsFor at *
    rw [List.filter_append]
    by_cases hw : w._id = wid
    · have hzero : acc.1.filter (fun e => e.parentId == wid) = [] := by
        rw [List.filter_eq_nil_iff]
        intro e he
        have := List.find?_eq_none.mp hf e he
        rw [hw] at this
        simpa using this
      simp [hzero, buildEnvironmentRecord, hw]
    · have : (buildEnvironmentRecord w._id (gen acc.2.1).1
          (gen acc.2.1).2).parentId = w._id := rfl
      simp only [List.filter_cons, List.filter_nil]
      rw [this]
      have hne : (w._id == wid) = false := beq_eq_false_iff_ne.mpr hw
      simp [hne]
      simpa using h

theorem essFold_count_le_one (gen : Nat → String × Nat)
    (L : List WorkspaceRecord) (wid : String) :
    ∀ acc, countEnvsFor wid acc.1 ≤ 1 →
      countEnvsFor wid (L.foldl (essStep gen) acc).1 ≤ 1 := by
  induction L with
  | nil => exact fun acc h => h
  | cons w L ih =>
    intro acc h
    exact ih (essStep gen acc w) (essStep_count_le_one gen acc w wid h)

theorem essFold_flag_mono (gen : Nat → String × Nat) (L : List WorkspaceRecord) :
    ∀ acc, acc.2.2 = true → (L.foldl (essStep gen) acc).2.2 = true := by
  induction L with
  | nil => exact fun acc h => h
  | cons w L ih =>
    intro acc h
    apply ih
    rcases essStep_cases gen acc w with hc | ⟨_, _, hc⟩ <;> rw [hc]
    exact h

theorem essFold_of_flag_false (gen : Nat → String × Nat)
    (L : List WorkspaceRecord) :
    ∀ acc, (L.foldl (essStep gen) acc).2.2 = false →
      L.foldl (essStep gen) acc = acc := by
  induction L with
  | nil => exact fun acc _ => rfl
  | cons w L ih =>
    intro acc hflag
    rcases essStep_cases gen acc w with hc | ⟨_, _, hc⟩
    · rw [List.foldl_cons, hc] at hflag ⊢
      exact ih acc hflag
    · exfalso
      rw [List.foldl_cons, hc] at hflag
      rw [essFold_flag_mono gen L _ rfl] at hflag
      exact Bool.noConfusion hflag

theorem essFold_identity (gen : Nat → String × Nat) (L : List WorkspaceRecord) :
    ∀ acc, (∀ w ∈ L, w.scope = COLLECTION_SCOPE →
      ∃ e ∈ acc.1, e.parentId = w._id) →
      L.foldl (essStep gen) acc = acc := by
  induction L with
  | nil => exact fun acc _ => rfl
  | cons w L ih =>
    intro acc hcov
    have hstep : essStep gen acc w = acc := by
      by_cases hs : w.scope = COLLECTION_SCOPE
      · obtain ⟨e, he, hpar⟩ := hcov w (List.mem_cons_self w L) hs
        have hs' : (w.scope != COLLECTION_SCOPE) = false := by simp [bne, hs]
        rcases hf : acc.1.find? (fun r => r.parentId == w._id) with _ | e'
        · exfalso
          have := List.find?_eq_none.mp hf e he
          simp [hpar] at this
        · simp [essStep, hs', ensureEnvironmentForWorkspace, hf]
      · have hs' : (w.scope != COLLECTION_SCOPE) = true := by simp [bne, hs]
        simp [essStep, hs']
    rw [List.foldl_cons, hstep]
    exact ih acc (fun x hx => hcov x (List.mem_cons_of_mem w hx))

/-- **C7** counterexample: on a starting state in which the
collection-scoped workspace `wrk_1` already has two environments, one run
of the bootstrap leaves both in place — two environment records parented at
`wrk_1`, not exactly one. -/
theorem ensureSampleData_duplicate_envs_cex :
    wrk1.scope = COLLECTION_SCOPE ∧
    countEnvsFor "wrk_1" (readEnvironmentRecords
      (ensureSampleData (fun _ => ("env_new", 9))
        ⟨[wrk1], [], [], [env1, env2]⟩).1) = 2 :=
  ⟨rfl, rfl⟩

/-- **C7** (amended): the bootstrap is idempotent.  One run gives every
collection-scoped workspace at least one environment — exactly one when the
workspace started with at most one — and a second run changes nothing and
performs no environment-file write (it returns the store unchanged with the
wrote-flag false). -/
theorem ensureSampleData_bootstrap (gen gen' : Nat → String × Nat) (s : Store) :
    (∀ w ∈ readWorkspaceRecords s, w.scope = COLLECTION_SCOPE →
      0 < countEnvsFor w._id
          (readEnvironmentRecords (ensureSampleData gen s).1) ∧
      (countEnvsFor w._id (readEnvironmentRecords s) ≤ 1 →
        countEnvsFor w._id
          (readEnvironmentRecords (ensureSampleData gen s).1) = 1)) ∧
    ensureSampleData gen' (ensureSampleData gen s).1 =
      ((ensureSampleData gen s).1, false) := by
  by_cases hL : ((readWorkspaceRecords s).length == 0) = true
  · have hnil : readWorkspaceRecords s = [] :=
      List.length_eq_zero.mp (by simpa using hL)
    have h1 : ensureSampleData gen s = (s, false) := by
      simp [ensureSampleData, hL]
    constructor
    · intro w hw
      rw [hnil] at hw
      exact absurd hw (List.not_mem_nil w)
    · rw [h1]
      simp [ensureSampleData, hL]
  · have hL' : ((readWorkspaceRecords s).length == 0) = false := by
      simpa using hL
    have hE₀ : ∀ e ∈ readEnvironmentRecords s, e.type = "Environment" := by
      intro e he
      have := (List.mem_filter.mp he).2
      exact beq_iff_eq.mp this
    have hready : readEnvironmentRecords (ensureSampleData gen s).1 =
        ((readWorkspaceRecords s).foldl (essStep gen)
          (readEnvironmentRecords s, 0, false)).1 := by
      rcases hflag : ((readWorkspaceRecords s).foldl (essStep gen)
          (readEnvironmentRecords s, 0, false)).2.2 with _ | _
      · have h1 : ensureSampleData gen s = (s, false) := by
          simp [ensureSampleData, hL', hflag]
        rw [h1,
          essFold_of_flag_false gen (readWorkspaceRecords s) _ hflag]
      · have h1 : ensureSampleData gen s =
            (writeEnvironmentRecords s
              ((readWorkspaceRecords s).foldl (essStep gen)
                (readEnvironmentRecords s, 0, false)).1, true) := by
          simp [ensureSampleData, hL', hflag]
        rw [h1]
        show (((readWorkspaceRecords s).foldl (essStep gen)
          (readEnvironmentRecords s, 0, false)).1.filter
            (fun r => r.type == "Environment")) = _
        rw [List.filter_eq_self]
        intro e he
        exact beq_iff_eq.mpr
          (essFold_type_env gen (readWorkspaceRecords s) _ hE₀ e he)
    have hwork : readWorkspaceRecords (ensureSampleData gen s).1 =
        readWorkspaceRecords s := by
      rcases hflag : ((readWorkspaceRecords s).foldl (essStep gen)
          (readEnvironmentRecords s, 0, false)).2.2 with _ | _
      · have h1 : ensureSampleData gen s = (s, false) := by
          simp [ensureSampleData, hL', hflag]
        rw [h1]
      · have h1 : ensureSampleData gen s =
            (writeEnvironmentRecords s
              ((readWorkspaceRecords s).foldl (essStep gen)
                (readEnvironmentRecords s, 0, false)).1, true) := by
          simp [ensureSampleData, hL', hflag]
        rw [h1]
        rfl
    constructor
    · intro w hw hs
      obtain ⟨e, he, hpar⟩ :=
        essFold_exists_env gen (readWorkspaceRecords s)
          (readEnvironmentRecords s, 0, false) w hw hs
      have hpos : 0 < countEnvsFor w._id
          (readEnvironmentRecords (ensureSampleData gen s).1) := by
        rw [hready]
        unfold countEnvsFor
        apply List.length_pos.mpr
        apply List.ne_nil_of_mem (a := e)
        exact List.mem_filter.mpr ⟨he, beq_iff_eq.mpr hpar⟩
      refine ⟨hpos, fun hle => ?_⟩
      have hle' := essFold_count_le_one gen (readWorkspaceRecords s) w._id
        (readEnvironmentRecords s, 0, false) hle
      rw [hready]
      rw [hready] at hpos
      omega
    · obtain ⟨s₁, hs₁⟩ : ∃ t, (ensureSampleData gen s).1 = t := ⟨_, rfl⟩
      rw [hs₁] at hwork hready
      have hcov : ∀ w ∈ readWorkspaceRecords s, w.scope = COLLECTION_SCOPE →
          ∃ e ∈ readEnvironmentRecords s₁, e.parentId = w._id := by
        rw [hready]
        exact fun w hw hs =>
          essFold_exists_env gen (readWorkspaceRecords s)
            (readEnvironmentRecords s, 0, false) w hw hs
      have hid := essFold_identity gen' (readWorkspaceRecords s)
        (readEnvironmentRecords s₁, 0, false) hcov
      rw [hs₁]
      simp [ensureSampleData, hwork, hL', hid]

/-- Witness for the bootstrap theorem: a one-workspace store with no
environment. -/
theorem ensureSampleData_bootstrap_witness :
    0 < countEnvsFor "wrk_1" (readEnvironmentRecords
      (ensureSampleData (fun _ => ("env_new", 9)) ⟨[wrk1], [], [], []⟩).1) ∧
    countEnvsFor "wrk_1" (readEnvironmentRecords
      (ensureSampleData (fun _ => ("env_new", 9)) ⟨[wrk1], [], [], []⟩).1) = 1 ∧
    ensureSampleData (fun _ => ("env_other", 11))
        (ensureSampleData (fun _ => ("env_new", 9)) ⟨[wrk1], [], [], []⟩).1 =
      ((ensureSampleData (fun _ => ("env_new", 9)) ⟨[wrk1], [], [], []⟩).1,
        false) := by
  have h := ensureSampleData_bootstrap (fun _ => ("env_new", 9))
    (fun _ => ("env_other", 11)) ⟨[wrk1], [], [], []⟩
  have h1 := h.1 wrk1 (by decide) rfl
  exact ⟨h1.1, h1.2 (by decide), h.2⟩

/-! ## Lemmas for the termination claim (C10)

The `while` loops of the folder-tree resolver terminate because every
iteration either stops or visits a lookup key it has not visited before.
The fuel-stability theorems below make that precise: past the canonical
fuel, more fuel never changes the answer. -/

/-- The number of lookup keys a walk with visited set `visited` can still
visit. -/
def remainingIds (lookup : List RequestGroupRecord)
    (visited : List String) : Nat :=
  (((lookup.map (fun f => f._id)).dedup).filter
    (fun i => !(visited.contains i))).length

theorem length_filter_not_beq_of_nodup (l : List String) (hnd : l.Nodup)
    (a : String) (ha : a ∈ l) :
    (l.filter (fun x => !(x == a))).length + 1 = l.length := by
  have h1 : l.filter (fun x => !(x == a)) = l.filter (fun x => x != a) := rfl
  rw [h1, ← List.Nodup.erase_eq_filter hnd, List.length_erase_of_mem ha]
  have := List.length_pos.mpr (List.ne_nil_of_mem ha)
  omega

theorem contains_append_singleton (l : List String) (a i : String) :
    (l ++ [a]).contains i = (l.contains i || (i == a)) := by
  induction l with
  | nil =>
    rw [List.nil_append, List.contains_cons]
    cases h : i == a <;> simp [h]
  | cons c l ih =>
    rw [List.cons_append, List.contains_cons, List.contains_cons, ih,
      Bool.or_assoc]

theorem remainingIds_visit (lookup : List RequestGroupRecord)
    (visited : List String) (pid : String)
    (hmem : pid ∈ lookup.map (fun f => f._id))
    (hnv : visited.contains pid = false) :
    remainingIds lookup (pid :: visited) + 1 = remainingIds lookup visited := by
  unfold remainingIds
  have hD : pid ∈ (lookup.map (fun f => f._id)).dedup := List.mem_dedup.mpr hmem
  have hnd : ((lookup.map (fun f => f._id)).dedup).Nodup := List.nodup_dedup _
  have hsplit : ∀ i ∈ (lookup.map (fun f => f._id)).dedup,
      (!((pid :: visited).contains i)) =
        ((!(i == pid)) && (!(visited.contains i))) := by
    intro i _
    rw [List.contains_cons]
    cases h1 : (i == pid) <;> cases h2 : visited.contains i <;> simp [h1, h2]
  rw [List.filter_congr hsplit, ← List.filter_filter]
  have hpmem : pid ∈ ((lookup.map (fun f => f._id)).dedup).filter
      (fun i => !(visited.contains i)) :=
    List.mem_filter.mpr ⟨hD, by rw [hnv]; rfl⟩
  exact length_filter_not_beq_of_nodup _ (hnd.filter _) pid hpmem

theorem lookupFolder_key_mem (lookup : List RequestGroupRecord) (pid : String)
    (f : RequestGroupRecord) (h : lookupFolder lookup pid = some f) :
    pid ∈ lookup.map (fun g => g._id) := by
  have h' : lookup.find? (fun g => g._id == pid) = some f := h
  have hmem : f ∈ lookup := List.mem_of_find?_eq_some h'
  have hp := List.find?_some h'
  have hid : f._id = pid := beq_iff_eq.mp hp
  exact List.mem_map.mpr ⟨f, hmem, hid⟩

theorem folderBelongsAux_stable (lookup : List RequestGroupRecord)
    (workspaceId : String) :
    ∀ fuel₁ fuel₂ pid visited, remainingIds lookup visited < fuel₁ →
      remainingIds lookup visited < fuel₂ →
      folderBelongsAux lookup workspaceId fuel₁ pid visited =
        folderBelongsAux lookup workspaceId fuel₂ pid visited := by
  intro fuel₁
  induction fuel₁ with
  | zero => intro fuel₂ pid visited h₁ _; omega
  | succ n ih =>
    intro fuel₂ pid visited h₁ h₂
    cases fuel₂ with
    | zero => omega
    | succ m =>
      simp only [folderBelongsAux]
      rcases he : pid == "" with _ | _
      · rcases hw : pid == workspaceId with _ | _
        · rcases hv : visited.contains pid with _ | _
          · rcases hlf : lookupFolder lookup pid with _ | f
            · simp [he, hw, hv, hlf]
            · simp only [he, hw, hv, hlf, Bool.false_eq_true, if_false]
              apply ih
              · have := remainingIds_visit lookup visited pid
                  (lookupFolder_key_mem lookup pid f hlf) hv
                omega
              · have := remainingIds_visit lookup visited pid
                  (lookupFolder_key_mem lookup pid f hlf) hv
                omega
          · simp [he, hw, hv]
        · simp [he, hw]
      · simp [he]

theorem noCycleAux_stable (lookup : List RequestGroupRecord)
    (folderId : String) :
    ∀ fuel₁ fuel₂ currentId visited, remainingIds lookup visited < fuel₁ →
      remainingIds lookup visited < fuel₂ →
      noCycleAux lookup folderId fuel₁ currentId visited =
        noCycleAux lookup folderId fuel₂ currentId visited := by
  intro fuel₁
  induction fuel₁ with
  | zero => intro fuel₂ currentId visited h₁ _; omega
  | succ n ih =>
    intro fuel₂ currentId visited h₁ h₂
    cases fuel₂ with
    | zero => omega
    | succ m =>
      simp only [noCycleAux]
      rcases he : currentId == "" with _ | _
      · rcases hw : currentId == folderId with _ | _
        · rcases hv : visited.contains currentId with _ | _
          · rcases hlf : lookupFolder lookup currentId with _ | f
            · simp [he, hw, hv, hlf]
            · simp only [he, hw, hv, hlf, Bool.false_eq_true, if_false]
              apply ih
              · have := remainingIds_visit lookup visited currentId
                  (lookupFolder_key_mem lookup currentId f hlf) hv
                omega
              · have := remainingIds_visit lookup visited currentId
                  (lookupFolder_key_mem lookup currentId f hlf) hv
                omega
          · simp [he, hw, hv]
        · simp [he, hw]
      · simp [he]

theorem collectDescAux_stable (lookup : List RequestGroupRecord)
    (cand : List String) (hnd : cand.Nodup)
    (hkeys : ∀ f ∈ lookup, f._id ∈ cand) :
    ∀ fuel₁ fuel₂ stack descendants, (∀ x ∈ stack, x ∈ cand) →
      (cand.filter (fun i => !(descendants.contains i))).length *
          (lookup.length + 1) + stack.length < fuel₁ →
      (cand.filter (fun i => !(descendants.contains i))).length *
          (lookup.length + 1) + stack.length < fuel₂ →
      collectDescAux lookup fuel₁ stack descendants =
        collectDescAux lookup fuel₂ stack descendants := by
  intro fuel₁
  induction fuel₁ with
  | zero => intro fuel₂ stack descendants _ h₁ _; omega
  | succ n ih =>
    intro fuel₂ stack descendants hstk h₁ h₂
    cases fuel₂ with
    | zero => omega
    | succ m =>
      simp only [collectDescAux]
      cases stack with
      | nil => rfl
      | cons current rest =>
        rcases hv : descendants.contains current with _ | _
        · simp only [hv, Bool.false_eq_true, if_false]
          -- the visit case: `current` is added to the set, children pushed
          have hcur : current ∈ cand := hstk current (List.mem_cons_self _ _)
          have hdrop : (cand.filter
              (fun i => !((descendants ++ [current]).contains i))).length + 1 =
              (cand.filter (fun i => !(descendants.contains i))).length := by
            have hsplit : ∀ i ∈ cand,
                (!((descendants ++ [current]).contains i)) =
                  ((!(i == current)) && (!(descendants.contains i))) := by
              intro i _
              rw [contains_append_singleton]
              cases h1 : (i == current) <;>
                cases h2 : descendants.contains i <;> simp [h1, h2]
            rw [List.filter_congr hsplit, ← List.filter_filter]
            have hcmem : current ∈ cand.filter
                (fun i => !(descendants.contains i)) :=
              List.mem_filter.mpr ⟨hcur, by rw [hv]; rfl⟩
            exact length_filter_not_beq_of_nodup _ (hnd.filter _) current hcmem
          have hchild : ((lookup.filter
              (fun folder => folder.parentId == current)).map
                (fun folder => folder._id)).length ≤ lookup.length := by
            rw [List.length_map]
            exact List.length_filter_le _ _
          have hstack' : ∀ x ∈ ((lookup.filter
              (fun folder => folder.parentId == current)).map
                (fun folder => folder._id)).reverse ++ rest, x ∈ cand := by
            intro x hx
            rcases List.mem_append.mp hx with hx | hx
            · rw [List.mem_reverse] at hx
              obtain ⟨f, hf, rfl⟩ := List.mem_map.mp hx
              exact hkeys f (List.mem_filter.mp hf).1
            · exact hstk x (List.mem_cons_of_mem _ hx)
          apply ih _ _ _ hstack'
          · rw [List.length_append, List.length_reverse]
            have hmul : ((cand.filter
                (fun i => !((descendants ++ [current]).contains i))).length + 1) *
                  (lookup.length + 1) =
                (cand.filter
                  (fun i => !((descendants ++ [current]).contains i))).length *
                    (lookup.length + 1) + (lookup.length + 1) :=
              Nat.succ_mul _ _
            rw [hdrop] at hmul
            rw [List.length_cons] at h₁
            omega
          · rw [List.length_append, List.length_reverse]
            have hmul : ((cand.filter
                (fun i => !((descendants ++ [current]).contains i))).length + 1) *
                  (lookup.length + 1) =
                (cand.filter
                  (fun i => !((descendants ++ [current]).contains i))).length *
                    (lookup.length + 1) + (lookup.length + 1) :=
              Nat.succ_mul _ _
            rw [hdrop] at hmul
            rw [List.length_cons] at h₂
            omega
        · simp only [hv, if_true]
          apply ih _ _ _ (fun x hx => hstk x (List.mem_cons_of_mem _ hx))
          · rw [List.length_cons] at h₁
            omega
          · rw [List.length_cons] at h₂
            omega

theorem remainingIds_nil_le (lookup : List RequestGroupRecord) :
    remainingIds lookup [] ≤ lookup.length := by
  unfold remainingIds
  have hfe : ((lookup.map (fun f => f._id)).dedup).filter
      (fun i => !(([] : List String).contains i)) =
      (lookup.map (fun f => f._id)).dedup :=
    List.filter_eq_self.mpr (fun a _ => rfl)
  calc (((lookup.map (fun f => f._id)).dedup).filter
        (fun i => !(([] : List String).contains i))).length
      = ((lookup.map (fun f => f._id)).dedup).length := by rw [hfe]
    _ ≤ (lookup.map (fun f => f._id)).length :=
        (List.dedup_sublist _).length_le
    _ = lookup.length := List.length_map _ _

/-- **C10** (confirmed): the visited-set guarded tree walks terminate on
every folder set, malformed parent cycles included.  Formally: any fuel at
or past the canonical bound computes exactly the canonical (fuel-free)
answer of `folderBelongsToWorkspace`, `ensureNoFolderCycle` and
`collectDescendantFolderIds`, so each walk stabilizes after at most the
bound's number of iterations — no input makes the loops run forever. -/
theorem treeWalks_terminate :
    (∀ (lookup : List RequestGroupRecord) (workspaceId : String)
        (folder : RequestGroupRecord) (fuel : Nat), walkFuel lookup ≤ fuel →
      folderBelongsAux lookup workspaceId fuel folder.parentId [] =
        folderBelongsToWorkspace folder workspaceId lookup) ∧
    (∀ (lookup : List RequestGroupRecord) (folderId parentId : String)
        (fuel : Nat), walkFuel lookup ≤ fuel →
      noCycleAux lookup folderId fuel parentId [] =
        ensureNoFolderCycle folderId parentId lookup) ∧
    (∀ (lookup : List RequestGroupRecord) (folderId : String) (fuel : Nat),
        descFuel lookup ≤ fuel →
      collectDescAux lookup fuel [folderId] [] =
        collectDescendantFolderIds folderId lookup) := by
  refine ⟨?_, ?_, ?_⟩
  · intro lookup workspaceId folder fuel hfuel
    apply folderBelongsAux_stable
    · have := remainingIds_nil_le lookup
      unfold walkFuel at hfuel
      omega
    · have := remainingIds_nil_le lookup
      unfold walkFuel
      omega
  · intro lookup folderId parentId fuel hfuel
    apply noCycleAux_stable
    · have := remainingIds_nil_le lookup
      unfold walkFuel at hfuel
      omega
    · have := remainingIds_nil_le lookup
      unfold walkFuel
      omega
  · intro lookup folderId fuel hfuel
    have hnd : ((folderId :: lookup.map (fun f => f._id)).dedup).Nodup :=
      List.nodup_dedup _
    have hkeys : ∀ f ∈ lookup,
        f._id ∈ (folderId :: lookup.map (fun f => f._id)).dedup := by
      intro f hf
      exact List.mem_dedup.mpr (List.mem_cons_of_mem _
        (List.mem_map.mpr ⟨f, hf, rfl⟩))
    have hstk : ∀ x ∈ [folderId],
        x ∈ (folderId :: lookup.map (fun f => f._id)).dedup := by
      intro x hx
      rw [List.mem_singleton.mp hx]
      exact List.mem_dedup.mpr (List.mem_cons_self _ _)
    have hbound : (((folderId :: lookup.map (fun f => f._id)).dedup).filter
        (fun i => !(([] : List String).contains i))).length *
          (lookup.length + 1) + ([folderId] : List String).length <
        descFuel lookup := by
      have h1 : (((folderId :: lookup.map (fun f => f._id)).dedup).filter
          (fun i => !(([] : List String).contains i))).length ≤
          lookup.length + 1 := by
        have hfe : ((folderId :: lookup.map (fun f => f._id)).dedup).filter
            (fun i => !(([] : List String).contains i)) =
            (folderId :: lookup.map (fun f => f._id)).dedup :=
          List.filter_eq_self.mpr (fun a _ => rfl)
        calc (((folderId :: lookup.map (fun f => f._id)).dedup).filter
              (fun i => !(([] : List String).contains i))).length
            = ((folderId :: lookup.map (fun f => f._id)).dedup).length := by
              rw [hfe]
          _ ≤ (folderId :: lookup.map (fun f => f._id)).length :=
              (List.dedup_sublist _).length_le
          _ = lookup.length + 1 := by
              rw [List.length_cons, List.length_map]
      unfold descFuel
      have hmul : (((folderId :: lookup.map (fun f => f._id)).dedup).filter
          (fun i => !(([] : List String).contains i))).length *
            (lookup.length + 1) ≤
          (lookup.length + 1) * (lookup.length + 1) :=
        Nat.mul_le_mul_right _ h1
      simp only [List.length_cons, List.length_nil]
      omega
    apply collectDescAux_stable lookup _ hnd hkeys _ _ _ _ hstk
    · omega
    · exact hbound

/-- Witness for the termination theorem: a two-folder set whose parent
pointers form a cycle; extra fuel computes the same (cycle-guarded)
answers as the canonical entry points. -/
theorem treeWalks_terminate_witness :
    walkFuel [fldX, fldY] ≤ 9 ∧ descFuel [fldX, fldY] ≤ 30 ∧
    folderBelongsAux [fldX, fldY] "wrk_1" 9 fldX.parentId [] =
      folderBelongsToWorkspace fldX "wrk_1" [fldX, fldY] ∧
    noCycleAux [fldX, fldY] "fld_z" 9 fldX.parentId [] =
      ensureNoFolderCycle "fld_z" fldX.parentId [fldX, fldY] ∧
    collectDescAux [fldX, fldY] 30 ["fld_x"] [] =
      collectDescendantFolderIds "fld_x" [fldX, fldY] ∧
    folderBelongsToWorkspace fldX "wrk_1" [fldX, fldY] = false :=
  ⟨by decide, by decide,
    treeWalks_terminate.1 [fldX, fldY] "wrk_1" fldX 9 (by decide),
    treeWalks_terminate.2.1 [fldX, fldY] "fld_z" fldX.parentId 9 (by decide),
    treeWalks_terminate.2.2 [fldX, fldY] "fld_x" 30 (by decide),
    by decide⟩

/-! ## The workspace `modified` bump (claim C9) -/

theorem loadWorkspace_ok (s : Store) (wid : String) (w : WorkspaceRecord)
    (h : loadWorkspace s wid = .ok w) :
    (readWorkspaceRecords s).find? (fun r => r._id == wid) = some w ∧
      w._id = wid := by
  unfold loadWorkspace at h
  rcases hf : (readWorkspaceRecords s).find? (fun r => r._id == wid) with _ | w'
  · rw [hf] at h
    exact Except.noConfusion h
  · rw [hf] at h
    injection h with h
    subst h
    have hp := List.find?_some hf
    exact ⟨hf, beq_iff_eq.mp hp⟩

/-- **C9** (confirmed): every successful mutation — folder create, update
and delete, request create, update and delete, and environment variable
set — leaves the workspace file with exactly one change: the first record
carrying the target collection's id has `modified` set to the operation's
timestamp; its other fields and all other records persist verbatim
(`bumpedWorkspaces`). -/
theorem workspace_modified_bump :
    (∀ (input : CreateFolderInput) (newId : String) (ts : Nat) (s : Store),
      (createFolder input newId ts s).1.isOk = true →
      (createFolder input newId ts s).2.workspaces =
        bumpedWorkspaces s input.collectionId ts) ∧
    (∀ (input : UpdateFolderInput) (ts : Nat) (s : Store),
      (updateFolder input ts s).1.isOk = true →
      (updateFolder input ts s).2.workspaces =
        bumpedWorkspaces s input.collectionId ts) ∧
    (∀ (input : FolderRefInput) (ts : Nat) (s : Store),
      (deleteFolder input ts s).1.isOk = true →
      (deleteFolder input ts s).2.workspaces =
        bumpedWorkspaces s input.collectionId ts) ∧
    (∀ (input : CreateRequestInput) (newId : String) (ts : Nat) (s : Store),
      (createRequest input newId ts s).1.isOk = true →
      (createRequest input newId ts s).2.workspaces =
        bumpedWorkspaces s input.collectionId ts) ∧
    (∀ (input : UpdateRequestInput) (ts : Nat) (s : Store),
      (updateRequest input ts s).1.isOk = true →
      (updateRequest input ts s).2.workspaces =
        bumpedWorkspaces s input.collectionId ts) ∧
    (∀ (input : RequestRefInput) (ts : Nat) (s : Store),
      (deleteRequest input ts s).1.isOk = true →
      (deleteRequest input ts s).2.workspaces =
        bumpedWorkspaces s input.collectionId ts) ∧
    (∀ (input : SetEnvironmentVariableInput) (ts : Nat) (s : Store),
      (setEnvironmentVariable input ts s).1.isOk = true →
      (setEnvironmentVariable input ts s).2.workspaces =
        bumpedWorkspaces s input.collectionId ts) := by
  refine ⟨?_, ?_, ?_, ?_, ?_, ?_, ?_⟩
  · -- createFolder
    intro input newId ts s hok
    rcases hlw : loadWorkspace s input.collectionId with e | w
    · simp [createFolder, hlw, Except.isOk, Except.toBool] at hok
    · obtain ⟨-, hid⟩ := loadWorkspace_ok s input.collectionId w hlw
      rcases hres : resolveFolderParentId w._id input.parentId
          (buildFolderLookup (readRequestGroupRecords s)) with e | pid
      · simp [createFolder, hlw, hres, Except.isOk, Except.toBool] at hok
      · simp only [createFolder, hlw, hres]
        simp [bumpWorkspace, writeWorkspaceRecords, bumpedWorkspaces,
          readWorkspaceRecords, writeRequestGroupRecords, hid]
  · -- updateFolder
    intro input ts s hok
    rcases hlw : loadWorkspace s input.collectionId with e | w
    · simp [updateFolder, hlw, Except.isOk, Except.toBool] at hok
    · obtain ⟨-, hid⟩ := loadWorkspace_ok s input.collectionId w hlw
      rcases hff : (readRequestGroupRecords s).find?
          (fun record => record._id == input.folderId) with _ | folder
      · simp [updateFolder, hlw, hff, Except.isOk, Except.toBool] at hok
      · rcases hb : folderBelongsToWorkspace folder w._id
            (buildFolderLookup (readRequestGroupRecords s)) with _ | _
        · simp [updateFolder, hlw, hff, hb, Except.isOk, Except.toBool] at hok
        · rcases hpid : input.parentId with _ | requested
          · simp only [updateFolder, hlw, hff, hb, hpid]
            simp [bumpWorkspace, writeWorkspaceRecords, bumpedWorkspaces,
              readWorkspaceRecords, writeRequestGroupRecords, hid]
          · rcases hres : resolveFolderParentId w._id requested
                (buildFolderLookup (readRequestGroupRecords s)) with e | newPid
            · simp [updateFolder, hlw, hff, hb, hpid, hres, Except.isOk, Except.toBool] at hok
            · rcases hnp : (newPid != w._id) with _ | _
              · simp only [updateFolder, hlw, hff, hb, hpid, hres, hnp]
                simp [bumpWorkspace, writeWorkspaceRecords, bumpedWorkspaces,
                  readWorkspaceRecords, writeRequestGroupRecords, hid]
              · rcases hcyc : ensureNoFolderCycle folder._id newPid
                    (buildFolderLookup (readRequestGroupRecords s)) with ce | u
                · simp [updateFolder, hlw, hff, hb, hpid, hres, hnp, hcyc,
                    Except.isOk, Except.toBool] at hok
                · simp only [updateFolder, hlw, hff, hb, hpid, hres, hnp, hcyc]
                  simp [bumpWorkspace, writeWorkspaceRecords, bumpedWorkspaces,
                    readWorkspaceRecords, writeRequestGroupRecords, hid]
  · -- deleteFolder
    intro input ts s hok
    rcases hlw : loadWorkspace s input.collectionId with e | w
    · simp [deleteFolder, hlw, Except.isOk, Except.toBool] at hok
    · obtain ⟨-, hid⟩ := loadWorkspace_ok s input.collectionId w hlw
      rcases hff : lookupFolder (buildFolderLookup (readRequestGroupRecords s))
          input.folderId with _ | folder
      · simp [deleteFolder, hlw, hff, Except.isOk, Except.toBool] at hok
      · rcases hb : folderBelongsToWorkspace folder w._id
            (buildFolderLookup (readRequestGroupRecords s)) with _ | _
        · simp [deleteFolder, hlw, hff, hb, Except.isOk, Except.toBool] at hok
        · simp only [deleteFolder, hlw, hff, hb]
          simp [bumpWorkspace, writeWorkspaceRecords, bumpedWorkspaces,
            readWorkspaceRecords, writeRequestGroupRecords, writeRequestRecords,
            hid]
  · -- createRequest
    intro input newId ts s hok
    rcases hlw : loadWorkspace s input.collectionId with e | w
    · simp [createRequest, hlw, Except.isOk, Except.toBool] at hok
    · obtain ⟨-, hid⟩ := loadWorkspace_ok s input.collectionId w hlw
      rcases hres : resolveRequestParentId w._id input.folderId
          (buildFolderLookup (readRequestGroupRecords s)) with e | pid
      · simp [createRequest, hlw, hres, Except.isOk, Except.toBool] at hok
      · simp only [createRequest, hlw, hres]
        simp [bumpWorkspace, writeWorkspaceRecords, bumpedWorkspaces,
          readWorkspaceRecords, writeRequestRecords, hid]
  · -- updateRequest
    intro input ts s hok
    rcases hlw : loadWorkspace s input.collectionId with e | w
    · simp [updateRequest, hlw, Except.isOk, Except.toBool] at hok
    · obtain ⟨-, hid⟩ := loadWorkspace_ok s input.collectionId w hlw
      rcases hff : (readRequestRecords s).find?
          (fun record => record._id == input.requestId) with _ | request
      · simp [updateRequest, hlw, hff, Except.isOk, Except.toBool] at hok
      · rcases hb : requestBelongsToWorkspace request w._id
            (buildFolderLookup (readRequestGroupRecords s)) with _ | _
        · simp [updateRequest, hlw, hff, hb, Except.isOk, Except.toBool] at hok
        · rcases hpid : input.folderId with _ | requested
          · simp only [updateRequest, hlw, hff, hb, hpid]
            simp [bumpWorkspace, writeWorkspaceRecords, bumpedWorkspaces,
              readWorkspaceRecords, writeRequestRecords, hid]
          · rcases hres : resolveRequestParentId w._id requested
                (buildFolderLookup (readRequestGroupRecords s)) with e | newPid
            · simp [updateRequest, hlw, hff, hb, hpid, hres, Except.isOk, Except.toBool] at hok
            · simp only [updateRequest, hlw, hff, hb, hpid, hres]
              simp [bumpWorkspace, writeWorkspaceRecords, bumpedWorkspaces,
                readWorkspaceRecords, writeRequestRecords, hid]
  · -- deleteRequest
    intro input ts s hok
    rcases hlw : loadWorkspace s input.collectionId with e | w
    · simp [deleteRequest, hlw, Except.isOk, Except.toBool] at hok
    · obtain ⟨-, hid⟩ := loadWorkspace_ok s input.collectionId w hlw
      rcases hff : (readRequestRecords s).find?
          (fun record => record._id == input.requestId) with _ | request
      · simp [deleteRequest, hlw, hff, Except.isOk, Except.toBool] at hok
      · rcases hb : requestBelongsToWorkspace request w._id
            (buildFolderLookup (readRequestGroupRecords s)) with _ | _
        · simp [deleteRequest, hlw, hff, hb, Except.isOk, Except.toBool] at hok
        · simp only [deleteRequest, hlw, hff, hb]
          simp [bumpWorkspace, writeWorkspaceRecords, bumpedWorkspaces,
            readWorkspaceRecords, writeRequestRecords, hid]
  · -- setEnvironmentVariable
    intro input ts s hok
    rcases hlw : loadWorkspace s input.collectionId with e | w
    · simp [setEnvironmentVariable, hlw, Except.isOk, Except.toBool] at hok
    · obtain ⟨-, hid⟩ := loadWorkspace_ok s input.collectionId w hlw
      rcases hfe : (readEnvironmentRecords s).find?
          (fun record => record.parentId == w._id) with _ | environment
      · simp [setEnvironmentVariable, hlw, hfe, Except.isOk, Except.toBool] at hok
      · simp only [setEnvironmentVariable, hlw, hfe]
        simp [bumpWorkspace, writeWorkspaceRecords, bumpedWorkspaces,
          readWorkspaceRecords, writeEnvironmentRecords, hid]

/-- Witness for the bump theorem: a successful folder creation on a
concrete store bumping the workspace's `modified`. -/
theorem workspace_modified_bump_witness :
    (createFolder ⟨"wrk_1", "New", none, none⟩ "fld_new" 77
        ⟨[wrk1], [], [], [env1]⟩).1.isOk = true ∧
    (createFolder ⟨"wrk_1", "New", none, none⟩ "fld_new" 77
        ⟨[wrk1], [], [], [env1]⟩).2.workspaces =
      bumpedWorkspaces ⟨[wrk1], [], [], [env1]⟩ "wrk_1" 77 :=
  ⟨by decide,
    workspace_modified_bump.1 ⟨"wrk_1", "New", none, none⟩ "fld_new" 77
      ⟨[wrk1], [], [], [env1]⟩ (by decide)⟩

/-! ## Cycle rejection (claim C2) -/

/-- **C2** (confirmed): on a store carrying the folder chain A→B→C under
workspace W, reparenting A under its descendant C fails with the cycle
error, and no file is written — the returned store is exactly the input
store, every record (in particular every `parentId`) untouched. -/
theorem updateFolder_cycle_rejected (w : WorkspaceRecord)
    (a b c : RequestGroupRecord) (reqs : List RequestRecord)
    (envs : List EnvironmentRecord) (ts : Nat)
    (htw : w.type = "Workspace") (hta : a.type = "RequestGroup")
    (htb : b.type = "RequestGroup") (htc : c.type = "RequestGroup")
    (ha : a.parentId = w._id) (hb : b.parentId = a._id)
    (hc : c.parentId = b._id)
    (h1 : w._id ≠ "") (h2 : a._id ≠ "") (h3 : b._id ≠ "") (h4 : c._id ≠ "")
    (h5 : a._id ≠ w._id) (h6 : b._id ≠ w._id) (h7 : c._id ≠ w._id)
    (h8 : a._id ≠ b._id) (h9 : a._id ≠ c._id) (h10 : b._id ≠ c._id) :
    updateFolder ⟨w._id, a._id, none, none, some (some c._id)⟩ ts
        ⟨[w], [a, b, c], reqs, envs⟩ =
      (.error "Cannot move a folder into itself or its descendants",
        ⟨[w], [a, b, c], reqs, envs⟩) := by
  have e1 : (w._id == "") = false := beq_eq_false_iff_ne.mpr h1
  have e2 : (a._id == "") = false := beq_eq_false_iff_ne.mpr h2
  have e3 : (b._id == "") = false := beq_eq_false_iff_ne.mpr h3
  have e4 : (c._id == "") = false := beq_eq_false_iff_ne.mpr h4
  have e5 : (a._id == w._id) = false := beq_eq_false_iff_ne.mpr h5
  have e6 : (b._id == w._id) = false := beq_eq_false_iff_ne.mpr h6
  have e7 : (c._id == w._id) = false := beq_eq_false_iff_ne.mpr h7
  have e8 : (a._id == b._id) = false := beq_eq_false_iff_ne.mpr h8
  have e9 : (a._id == c._id) = false := beq_eq_false_iff_ne.mpr h9
  have e10 : (b._id == c._id) = false := beq_eq_false_iff_ne.mpr h10
  have e8' : (b._id == a._id) = false := beq_eq_false_iff_ne.mpr (Ne.symm h8)
  have e9' : (c._id == a._id) = false := beq_eq_false_iff_ne.mpr (Ne.symm h9)
  have e10' : (c._id == b._id) = false := beq_eq_false_iff_ne.mpr (Ne.symm h10)
  have n5 : w._id ≠ a._id := Ne.symm h5
  have n6 : w._id ≠ b._id := Ne.symm h6
  have n7 : w._id ≠ c._id := Ne.symm h7
  have n8 : b._id ≠ a._id := Ne.symm h8
  have n9 : c._id ≠ a._id := Ne.symm h9
  have n10 : c._id ≠ b._id := Ne.symm h10
  simp [updateFolder, loadWorkspace, readWorkspaceRecords,
    readRequestGroupRecords, buildFolderLookup, mapSet, lookupFolder,
    folderBelongsToWorkspace, folderBelongsAux, walkFuel,
    resolveFolderParentId, ensureFolderInWorkspace, ensureNoFolderCycle,
    noCycleAux, Except.map, htw, hta, htb, htc, ha, hb, hc,
    h1, h2, h3, h4, h5, h6, h7, h8, h9, h10, n5, n6, n7, n8, n9, n10,
    e1, e2, e3, e4, e5, e6, e7, e8, e9, e10, e8', e9', e10']

/-- Witness for the cycle-rejection theorem: a concrete three-folder
chain. -/
theorem updateFolder_cycle_rejected_witness :
    updateFolder ⟨"wrk_1", "fld_a", none, none, some (some "fld_c")⟩ 50
        ⟨[wrk1], [fldA, fldB, fldC], [], []⟩ =
      (.error "Cannot move a folder into itself or its descendants",
        ⟨[wrk1], [fldA, fldB, fldC], [], []⟩) :=
  updateFolder_cycle_rejected wrk1 fldA fldB fldC [] [] 50 rfl rfl rfl rfl
    rfl rfl rfl (by decide) (by decide) (by decide) (by decide) (by decide)
    (by decide) (by decide) (by decide) (by decide) (by decide)

/-! ## Cascading delete (claim C1) -/

/-- **C1** (confirmed): on a store where folder A (parent W) has descendant
folders B (parent A) and C (parent B), request X sits under B, request Y
directly under A, sibling folder D and request Z sit directly at the
workspace, deleting A removes exactly the folders {A, B, C} and the
requests {X, Y}: the persisted folder file is exactly [D], the request file
exactly [Z], both records verbatim, and only the workspace's `modified` is
bumped. -/
theorem deleteFolder_cascade_exact (w : WorkspaceRecord)
    (a b c d : RequestGroupRecord) (x y z : RequestRecord)
    (envs : List EnvironmentRecord) (ts : Nat)
    (htw : w.type = "Workspace") (hta : a.type = "RequestGroup")
    (htb : b.type = "RequestGroup") (htc : c.type = "RequestGroup")
    (htd : d.type = "RequestGroup") (htx : x.type = "Request")
    (hty : y.type = "Request") (htz : z.type = "Request")
    (ha : a.parentId = w._id) (hb : b.parentId = a._id)
    (hc : c.parentId = b._id) (hd : d.parentId = w._id)
    (hx : x.parentId = b._id) (hy : y.parentId = a._id)
    (hz : z.parentId = w._id)
    (h1 : w._id ≠ "")
    (h5 : a._id ≠ w._id) (h6 : b._id ≠ w._id) (h7 : c._id ≠ w._id)
    (h8 : a._id ≠ b._id) (h9 : a._id ≠ c._id) (h10 : b._id ≠ c._id)
    (h11 : d._id ≠ w._id) (h12 : d._id ≠ a._id) (h13 : d._id ≠ b._id)
    (h14 : d._id ≠ c._id) :
    deleteFolder ⟨w._id, a._id⟩ ts ⟨[w], [a, b, c, d], [x, y, z], envs⟩ =
      (.ok (), ⟨[{ w with modified := ts }], [d], [z], envs⟩) := by
  have e1 : (w._id == "") = false := beq_eq_false_iff_ne.mpr h1
  have e5 : (a._id == w._id) = false := beq_eq_false_iff_ne.mpr h5
  have e6 : (b._id == w._id) = false := beq_eq_false_iff_ne.mpr h6
  have e7 : (c._id == w._id) = false := beq_eq_false_iff_ne.mpr h7
  have e8 : (a._id == b._id) = false := beq_eq_false_iff_ne.mpr h8
  have e9 : (a._id == c._id) = false := beq_eq_false_iff_ne.mpr h9
  have e10 : (b._id == c._id) = false := beq_eq_false_iff_ne.mpr h10
  have e11 : (d._id == w._id) = false := beq_eq_false_iff_ne.mpr h11
  have e12 : (d._id == a._id) = false := beq_eq_false_iff_ne.mpr h12
  have e13 : (d._id == b._id) = false := beq_eq_false_iff_ne.mpr h13
  have e14 : (d._id == c._id) = false := beq_eq_false_iff_ne.mpr h14
  have e5' : (w._id == a._id) = false := beq_eq_false_iff_ne.mpr (Ne.symm h5)
  have e6' : (w._id == b._id) = false := beq_eq_false_iff_ne.mpr (Ne.symm h6)
  have e7' : (w._id == c._id) = false := beq_eq_false_iff_ne.mpr (Ne.symm h7)
  have e8' : (b._id == a._id) = false := beq_eq_false_iff_ne.mpr (Ne.symm h8)
  have e9' : (c._id == a._id) = false := beq_eq_false_iff_ne.mpr (Ne.symm h9)
  have e10' : (c._id == b._id) = false := beq_eq_false_iff_ne.mpr (Ne.symm h10)
  have e11' : (w._id == d._id) = false := beq_eq_false_iff_ne.mpr (Ne.symm h11)
  have e12' : (a._id == d._id) = false := beq_eq_false_iff_ne.mpr (Ne.symm h12)
  have e13' : (b._id == d._id) = false := beq_eq_false_iff_ne.mpr (Ne.symm h13)
  have e14' : (c._id == d._id) = false := beq_eq_false_iff_ne.mpr (Ne.symm h14)
  have n5 : w._id ≠ a._id := Ne.symm h5
  have n6 : w._id ≠ b._id := Ne.symm h6
  have n7 : w._id ≠ c._id := Ne.symm h7
  have n8 : b._id ≠ a._id := Ne.symm h8
  have n9 : c._id ≠ a._id := Ne.symm h9
  have n10 : c._id ≠ b._id := Ne.symm h10
  have n11 : w._id ≠ d._id := Ne.symm h11
  have n12 : a._id ≠ d._id := Ne.symm h12
  have n13 : b._id ≠ d._id := Ne.symm h13
  have n14 : c._id ≠ d._id := Ne.symm h14
  simp [deleteFolder, loadWorkspace, readWorkspaceRecords,
    readRequestGroupRecords, readRequestRecords, buildFolderLookup, mapSet,
    lookupFolder, folderBelongsToWorkspace, folderBelongsAux, walkFuel,
    collectDescendantFolderIds, collectDescAux, descFuel, bumpWorkspace,
    writeWorkspaceRecords, writeRequestGroupRecords, writeRequestRecords,
    updateFirst, htw, hta, htb, htc, htd, htx, hty, htz,
    ha, hb, hc, hd, hx, hy, hz,
    h1, h5, h6, h7, h8, h9, h10, h11, h12, h13, h14,
    n5, n6, n7, n8, n9, n10, n11, n12, n13, n14,
    e1, e5, e6, e7, e8, e9, e10, e11, e12, e13, e14,
    e5', e6', e7', e8', e9', e10', e11', e12', e13', e14']

/-- Witness for the cascading-delete theorem: the concrete A→B→C chain
with sibling D and requests X, Y, Z. -/
theorem deleteFolder_cascade_exact_witness :
    deleteFolder ⟨"wrk_1", "fld_a"⟩ 60
        ⟨[wrk1], [fldA, fldB, fldC, fldD],
          [mkReq "req_x" "fld_b", mkReq "req_y" "fld_a",
            mkReq "req_z" "wrk_1"], []⟩ =
      (.ok (), ⟨[{ wrk1 with modified := 60 }], [fldD],
        [mkReq "req_z" "wrk_1"], []⟩) :=
  deleteFolder_cascade_exact wrk1 fldA fldB fldC fldD
    (mkReq "req_x" "fld_b") (mkReq "req_y" "fld_a") (mkReq "req_z" "wrk_1")
    [] 60 rfl rfl rfl rfl rfl rfl rfl rfl rfl rfl rfl rfl rfl rfl rfl
    (by decide) (by decide) (by decide) (by decide) (by decide) (by decide)
    (by decide) (by decide) (by decide) (by decide) (by decide)

/-! ## Partial update semantics (claim C4) -/

/-- **C4** (confirmed): updating request R in collection W with only a new
name rewrites exactly R's `name` and `modified` (plus the workspace's
`modified`): method, url, headers, body, scripts and `parentId` persist
verbatim.  And updating with `preRequestScript: null` together with a
whitespace-only `afterResponseScript` removes both script properties from
the persisted record entirely rather than storing empty strings. -/
theorem updateRequest_partial_semantics (w : WorkspaceRecord)
    (r : RequestRecord) (fldrs : List RequestGroupRecord)
    (envs : List EnvironmentRecord) (n : String) (ts : Nat)
    (htw : w.type = "Workspace") (htr : r.type = "Request")
    (hpar : r.parentId = w._id) :
    updateRequest
        ⟨w._id, r._id, some n, none, none, none, none, none, none, none,
          none⟩ ts ⟨[w], fldrs, [r], envs⟩ =
      (.ok (toStoredRequest { r with name := n, modified := ts } w._id),
        ⟨[{ w with modified := ts }], fldrs,
          [{ r with name := n, modified := ts }], envs⟩) ∧
    updateRequest
        ⟨w._id, r._id, none, none, none, none, none, none, none, some none,
          some (some "   ")⟩ ts ⟨[w], fldrs, [r], envs⟩ =
      (.ok (toStoredRequest
          { r with preRequestScript := none, afterResponseScript := none,
                   modified := ts } w._id),
        ⟨[{ w with modified := ts }], fldrs,
          [{ r with preRequestScript := none, afterResponseScript := none,
                    modified := ts }], envs⟩) := by
  have htrim : ((jsTrim "   ").length == 0) = true := by decide
  constructor
  · simp [updateRequest, loadWorkspace, readWorkspaceRecords,
      readRequestRecords, requestBelongsToWorkspace, applyRequestUpdate,
      updateFirst, bumpWorkspace, writeWorkspaceRecords, writeRequestRecords,
      htw, htr, hpar]
  · simp [updateRequest, loadWorkspace, readWorkspaceRecords,
      readRequestRecords, requestBelongsToWorkspace, applyRequestUpdate,
      updateFirst, bumpWorkspace, writeWorkspaceRecords, writeRequestRecords,
      htw, htr, hpar, htrim]

/-- Witness for the partial-update theorem: a concrete request parented
directly at the workspace. -/
theorem updateRequest_partial_semantics_witness :
    updateRequest
        ⟨"wrk_1", "req_z", some "renamed", none, none, none, none, none,
          none, none, none⟩ 80 ⟨[wrk1], [], [mkReq "req_z" "wrk_1"], []⟩ =
      (.ok (toStoredRequest
          { (mkReq "req_z" "wrk_1") with name := "renamed", modified := 80 }
          "wrk_1"),
        ⟨[{ wrk1 with modified := 80 }], [],
          [{ (mkReq "req_z" "wrk_1") with name := "renamed", modified := 80 }],
          []⟩) ∧
    updateRequest
        ⟨"wrk_1", "req_z", none, none, none, none, none, none, none,
          some none, some (some "   ")⟩ 80
        ⟨[wrk1], [], [mkReq "req_z" "wrk_1"], []⟩ =
      (.ok (toStoredRequest
          { (mkReq "req_z" "wrk_1") with
            preRequestScript := none
            afterResponseScript := none
            modified := 80 } "wrk_1"),
        ⟨[{ wrk1 with modified := 80 }], [],
          [{ (mkReq "req_z" "wrk_1") with
             preRequestScript := none
             afterResponseScript := none
             modified := 80 }], []⟩) :=
  updateRequest_partial_semantics wrk1 (mkReq "req_z" "wrk_1") [] []
    "renamed" 80 rfl rfl rfl

/-! ## Workspace isolation (claim C3) -/

theorem mapSet_not_mem (m : List RequestGroupRecord) (f : RequestGroupRecord)
    (h : ∀ g ∈ m, g._id ≠ f._id) : mapSet m f = m ++ [f] := by
  unfold mapSet
  rw [if_neg]
  intro hany
  obtain ⟨g, hg, hbeq⟩ := List.any_eq_true.mp hany
  exact h g hg (beq_iff_eq.mp hbeq)

theorem buildFolderLookup_eq_self (l : List RequestGroupRecord)
    (hnd : (l.map (fun g => g._id)).Nodup) : buildFolderLookup l = l := by
  suffices h : ∀ m : List RequestGroupRecord,
      ((m ++ l).map (fun g => g._id)).Nodup → l.foldl mapSet m = m ++ l by
    simpa using h [] (by simpa using hnd)
  clear hnd
  induction l with
  | nil => intro m _; simp [buildFolderLookup]
  | cons f l ih =>
    intro m hnd'
    have hmaps : ((m ++ f :: l).map (fun g => g._id)) =
        m.map (fun g => g._id) ++ f._id :: l.map (fun g => g._id) := by
      simp
    rw [hmaps] at hnd'
    obtain ⟨hm, hfl, hdisj⟩ := List.nodup_append.mp hnd'
    have hne : ∀ g ∈ m, g._id ≠ f._id := by
      intro g hg heq
      exact hdisj (List.mem_map.mpr ⟨g, hg, rfl⟩)
        (heq ▸ List.mem_cons_self _ _)
    rw [List.foldl_cons, mapSet_not_mem m f hne]
    have hrearr : (m ++ [f]) ++ l = m ++ f :: l := by simp
    have := ih (m ++ [f]) (by rw [hrearr, hmaps]; exact hnd')
    rw [this, hrearr]

theorem lcStep_mem (gen : Nat → String × Nat) (reqs : List RequestRecord)
    (rgs lkp : List RequestGroupRecord)
    (acc : List StoredCollection × List EnvironmentRecord × Nat × Bool)
    (w : WorkspaceRecord) (coll : StoredCollection)
    (h : coll ∈ (lcStep gen reqs rgs lkp acc w).1) :
    coll ∈ acc.1 ∨ ∃ env, coll = toStoredCollection w env
      (collectRequestsForWorkspace w._id reqs lkp)
      (collectFoldersForWorkspace w._id rgs lkp) := by
  unfold lcStep at h
  by_cases hs : (w.scope != COLLECTION_SCOPE) = true
  · rw [if_pos hs] at h
    exact Or.inl h
  · rw [if_neg hs] at h
    rcases List.mem_append.mp h with h | h
    · exact Or.inl h
    · exact Or.inr ⟨_, List.mem_singleton.mp h⟩

theorem lcFold_mem (gen : Nat → String × Nat) (reqs : List RequestRecord)
    (rgs lkp : List RequestGroupRecord) (L : List WorkspaceRecord) :
    ∀ acc coll, coll ∈ (L.foldl (lcStep gen reqs rgs lkp) acc).1 →
      coll ∈ acc.1 ∨ ∃ w ∈ L, ∃ env, coll = toStoredCollection w env
        (collectRequestsForWorkspace w._id reqs lkp)
        (collectFoldersForWorkspace w._id rgs lkp) := by
  induction L with
  | nil => exact fun acc coll h => Or.inl h
  | cons w L ih =>
    intro acc coll h
    rcases ih (lcStep gen reqs rgs lkp acc w) coll h with h' | ⟨w', hw', henv⟩
    · rcases lcStep_mem gen reqs rgs lkp acc w coll h' with h'' | ⟨env, heq⟩
      · exact Or.inl h''
      · exact Or.inr ⟨w, List.mem_cons_self _ _, env, heq⟩
    · exact Or.inr ⟨w', List.mem_cons_of_mem _ hw', henv⟩

theorem collectFolders_id_excluded (rgs : List RequestGroupRecord)
    (W1 fid : String) (f : RequestGroupRecord)
    (hndf : (rgs.map (fun g => g._id)).Nodup)
    (hff : rgs.find? (fun g => g._id == fid) = some f)
    (hbf : folderBelongsToWorkspace f W1 (buildFolderLookup rgs) = false) :
    fid ∉ (collectFoldersForWorkspace W1 rgs (buildFolderLookup rgs)).map
      (fun g => g._id) := by
  intro hmem
  obtain ⟨g, hg, hgid⟩ := List.mem_map.mp hmem
  obtain ⟨hgrgs, hgbel⟩ := List.mem_filter.mp hg
  have hfmem : f ∈ rgs := List.mem_of_find?_eq_some hff
  have hp := List.find?_some hff
  have hfid : f._id = fid := beq_iff_eq.mp hp
  have hgf : g = f :=
    List.inj_on_of_nodup_map hndf hgrgs hfmem (hgid.trans hfid.symm)
  rw [hgf, hbf] at hgbel
  exact Bool.noConfusion hgbel

theorem collectRequests_id_excluded (reqs : List RequestRecord)
    (rgs : List RequestGroupRecord) (W1 rid : String) (r : RequestRecord)
    (hndr : (reqs.map (fun g => g._id)).Nodup)
    (hfr : reqs.find? (fun g => g._id == rid) = some r)
    (hbr : requestBelongsToWorkspace r W1 (buildFolderLookup rgs) = false) :
    rid ∉ (collectRequestsForWorkspace W1 reqs (buildFolderLookup rgs)).map
      (fun g => g._id) := by
  intro hmem
  obtain ⟨g, hg, hgid⟩ := List.mem_map.mp hmem
  obtain ⟨hgreqs, hgbel⟩ := List.mem_filter.mp hg
  have hfmem : r ∈ reqs := List.mem_of_find?_eq_some hfr
  have hp := List.find?_some hfr
  have hrid : r._id = rid := beq_iff_eq.mp hp
  have hgf : g = r :=
    List.inj_on_of_nodup_map hndr hgreqs hfmem (hgid.trans hrid.symm)
  rw [hgf, hbr] at hgbel
  exact Bool.noConfusion hgbel

theorem storedCollection_folder_ids (w : WorkspaceRecord)
    (env : EnvironmentRecord) (reqs : List RequestRecord)
    (flds : List RequestGroupRecord) :
    (toStoredCollection w env reqs flds).folders.map StoredFolder.id =
      flds.map (fun g => g._id) ∧
    (toStoredCollection w env reqs flds).requests.map StoredRequest.id =
      reqs.map (fun g => g._id) := by
  constructor <;> simp [toStoredCollection, toStoredFolder, toStoredRequest,
    List.map_map, Function.comp]

/-- **C3** (confirmed): an entity whose parent chain does not reach
workspace W1 is unreachable through every W1-scoped operation — folder and
request get/update/delete all fail with the not-found error and write
nothing — and the assembled collection shapes of `listCollections` and
`getCollection` for W1 never contain its id. -/
theorem workspace_isolation (s : Store) (W1 fid rid : String)
    (w1 : WorkspaceRecord) (f : RequestGroupRecord) (r : RequestRecord)
    (hlw : loadWorkspace s W1 = .ok w1)
    (hndf : ((readRequestGroupRecords s).map (fun g => g._id)).Nodup)
    (hndr : ((readRequestRecords s).map (fun g => g._id)).Nodup)
    (hff : (readRequestGroupRecords s).find? (fun g => g._id == fid) = some f)
    (hbf : folderBelongsToWorkspace f W1
      (readRequestGroupRecords s) = false)
    (hfr : (readRequestRecords s).find? (fun g => g._id == rid) = some r)
    (hbr : requestBelongsToWorkspace r W1
      (readRequestGroupRecords s) = false) :
    getFolder ⟨W1, fid⟩ s = (.error ("Folder " ++ fid ++ " not found"), s) ∧
    (∀ nm dsc par ts, updateFolder ⟨W1, fid, nm, dsc, par⟩ ts s =
      (.error ("Folder " ++ fid ++ " not found"), s)) ∧
    (∀ ts, deleteFolder ⟨W1, fid⟩ ts s =
      (.error ("Folder " ++ fid ++ " not found"), s)) ∧
    getRequest ⟨W1, rid⟩ s =
      (.error ("Request " ++ rid ++ " not found"), s) ∧
    (∀ nm mth url hdrs bdy dsc fld pre post ts,
      updateRequest ⟨W1, rid, nm, mth, url, hdrs, bdy, dsc, fld, pre, post⟩
        ts s = (.error ("Request " ++ rid ++ " not found"), s)) ∧
    (∀ ts, deleteRequest ⟨W1, rid⟩ ts s =
      (.error ("Request " ++ rid ++ " not found"), s)) ∧
    (∀ gen coll, coll ∈ (listCollections gen s).1 → coll.id = W1 →
      fid ∉ coll.folders.map StoredFolder.id ∧
      rid ∉ coll.requests.map StoredRequest.id) ∧
    (∀ gen coll, (getCollection W1 gen s).1 = some coll →
      fid ∉ coll.folders.map StoredFolder.id ∧
      rid ∉ coll.requests.map StoredRequest.id) := by
  obtain ⟨hfindw, hid⟩ := loadWorkspace_ok s W1 w1 hlw
  have hbl : buildFolderLookup (readRequestGroupRecords s) =
      readRequestGroupRecords s :=
    buildFolderLookup_eq_self _ hndf
  have hbf' : folderBelongsToWorkspace f w1._id
      (buildFolderLookup (readRequestGroupRecords s)) = false := by
    rw [hbl, hid]; exact hbf
  have hbr' : requestBelongsToWorkspace r w1._id
      (buildFolderLookup (readRequestGroupRecords s)) = false := by
    rw [hbl, hid]; exact hbr
  have hbf2 : folderBelongsToWorkspace f w1._id
      (readRequestGroupRecords s) = false := by
    rw [hid]; exact hbf
  have hbr2 : requestBelongsToWorkspace r w1._id
      (readRequestGroupRecords s) = false := by
    rw [hid]; exact hbr
  refine ⟨?_, ?_, ?_, ?_, ?_, ?_, ?_, ?_⟩
  · simp [getFolder, hlw, lookupFolder, hbl, hff, hbf', hbf2]
  · intro nm dsc par ts
    simp [updateFolder, hlw, hff, hbl, hbf', hbf2]
  · intro ts
    simp [deleteFolder, hlw, lookupFolder, hbl, hff, hbf', hbf2]
  · simp [getRequest, hlw, hfr, hbl, hbr', hbr2]
  · intro nm mth url hdrs bdy dsc fld pre post ts
    simp [updateRequest, hlw, hfr, hbl, hbr', hbr2]
  · intro ts
    simp [deleteRequest, hlw, hfr, hbl, hbr', hbr2]
  · intro gen coll hmem hcid
    by_cases hL : ((readWorkspaceRecords s).length == 0) = true
    · exfalso
      simp [listCollections, hL] at hmem
    · have hL' : ((readWorkspaceRecords s).length == 0) = false := by
        simpa using hL
      have hmem' : coll ∈ ((readWorkspaceRecords s).foldl
          (lcStep gen (readRequestRecords s) (readRequestGroupRecords s)
            (buildFolderLookup (readRequestGroupRecords s)))
          ([], readEnvironmentRecords s, 0, false)).1 := by
        simpa [listCollections, hL'] using hmem
      rcases lcFold_mem gen (readRequestRecords s) (readRequestGroupRecords s)
          (buildFolderLookup (readRequestGroupRecords s))
          (readWorkspaceRecords s) ([], readEnvironmentRecords s, 0, false)
          coll hmem' with h | ⟨w, _, env, heq⟩
      · exact absurd h (List.not_mem_nil coll)
      · have hident : w._id = W1 := by
          rw [heq] at hcid
          exact hcid
        obtain ⟨hfolds, hreqs⟩ := storedCollection_folder_ids w env
          (collectRequestsForWorkspace w._id (readRequestRecords s)
            (buildFolderLookup (readRequestGroupRecords s)))
          (collectFoldersForWorkspace w._id (readRequestGroupRecords s)
            (buildFolderLookup (readRequestGroupRecords s)))
        constructor
        · rw [heq, hfolds, hident]
          exact collectFolders_id_excluded _ W1 fid f hndf hff
            (by rw [hbl]; exact hbf)
        · rw [heq, hreqs, hident]
          exact collectRequests_id_excluded _ _ W1 rid r hndr hfr
            (by rw [hbl]; exact hbr)
  · intro gen coll hsome
    rcases hgw : (readWorkspaceRecords s).find? (fun record =>
        record._id == W1 && record.scope == COLLECTION_SCOPE) with _ | w2
    · rw [getCollection, hgw] at hsome
      exact Option.noConfusion hsome
    · have hp := List.find?_some hgw
      have hw2 : w2._id = W1 := by
        have := (Bool.and_eq_true _ _).mp hp
        exact beq_iff_eq.mp this.1
      rw [getCollection, hgw] at hsome
      have heq : coll = toStoredCollection w2
          (ensureEnvironmentForWorkspace w2._id (readEnvironmentRecords s)
            (gen 0).1 (gen 0).2).1
          (collectRequestsForWorkspace w2._id (readRequestRecords s)
            (buildFolderLookup (readRequestGroupRecords s)))
          (collectFoldersForWorkspace w2._id (readRequestGroupRecords s)
            (buildFolderLookup (readRequestGroupRecords s))) := by
        cases hsome
        rfl
      obtain ⟨hfolds, hreqs⟩ := storedCollection_folder_ids w2
        (ensureEnvironmentForWorkspace w2._id (readEnvironmentRecords s)
          (gen 0).1 (gen 0).2).1
        (collectRequestsForWorkspace w2._id (readRequestRecords s)
          (buildFolderLookup (readRequestGroupRecords s)))
        (collectFoldersForWorkspace w2._id (readRequestGroupRecords s)
          (buildFolderLookup (readRequestGroupRecords s)))
      constructor
      · rw [heq, hfolds, hw2]
        exact collectFolders_id_excluded _ W1 fid f hndf hff
          (by rw [hbl]; exact hbf)
      · rw [heq, hreqs, hw2]
        exact collectRequests_id_excluded _ _ W1 rid r hndr hfr
          (by rw [hbl]; exact hbr)

/-- Witness for the isolation theorem: a folder and a request of workspace
`wrk_2` are unreachable through operations scoped to `wrk_1`, and absent
from `wrk_1`'s assembled collection shape. -/
theorem workspace_isolation_witness :
    getFolder ⟨"wrk_1", "fld_w2"⟩
        ⟨[wrk1, wrk2], [fldW2], [mkReq "req_w2" "wrk_2"], []⟩ =
      (.error "Folder fld_w2 not found",
        ⟨[wrk1, wrk2], [fldW2], [mkReq "req_w2" "wrk_2"], []⟩) ∧
    updateFolder ⟨"wrk_1", "fld_w2", some "stolen", none, none⟩ 91
        ⟨[wrk1, wrk2], [fldW2], [mkReq "req_w2" "wrk_2"], []⟩ =
      (.error "Folder fld_w2 not found",
        ⟨[wrk1, wrk2], [fldW2], [mkReq "req_w2" "wrk_2"], []⟩) ∧
    deleteFolder ⟨"wrk_1", "fld_w2"⟩ 91
        ⟨[wrk1, wrk2], [fldW2], [mkReq "req_w2" "wrk_2"], []⟩ =
      (.error "Folder fld_w2 not found",
        ⟨[wrk1, wrk2], [fldW2], [mkReq "req_w2" "wrk_2"], []⟩) ∧
    getRequest ⟨"wrk_1", "req_w2"⟩
        ⟨[wrk1, wrk2], [fldW2], [mkReq "req_w2" "wrk_2"], []⟩ =
      (.error "Request req_w2 not found",
        ⟨[wrk1, wrk2], [fldW2], [mkReq "req_w2" "wrk_2"], []⟩) ∧
    updateRequest ⟨"wrk_1", "req_w2", some "stolen", none, none, none, none,
        none, none, none, none⟩ 91
        ⟨[wrk1, wrk2], [fldW2], [mkReq "req_w2" "wrk_2"], []⟩ =
      (.error "Request req_w2 not found",
        ⟨[wrk1, wrk2], [fldW2], [mkReq "req_w2" "wrk_2"], []⟩) ∧
    deleteRequest ⟨"wrk_1", "req_w2"⟩ 91
        ⟨[wrk1, wrk2], [fldW2], [mkReq "req_w2" "wrk_2"], []⟩ =
      (.error "Request req_w2 not found",
        ⟨[wrk1, wrk2], [fldW2], [mkReq "req_w2" "wrk_2"], []⟩) ∧
    (getCollection "wrk_1" (fun _ => ("env_g", 7))
        ⟨[wrk1, wrk2], [fldW2], [mkReq "req_w2" "wrk_2"], []⟩).1 =
      some (toStoredCollection wrk1
        (buildEnvironmentRecord "wrk_1" "env_g" 7) [] []) ∧
    "fld_w2" ∉ (toStoredCollection wrk1
      (buildEnvironmentRecord "wrk_1" "env_g" 7) [] []).folders.map
        StoredFolder.id ∧
    "req_w2" ∉ (toStoredCollection wrk1
      (buildEnvironmentRecord "wrk_1" "env_g" 7) [] []).requests.map
        StoredRequest.id := by
  have h := workspace_isolation
    ⟨[wrk1, wrk2], [fldW2], [mkReq "req_w2" "wrk_2"], []⟩
    "wrk_1" "fld_w2" "req_w2" wrk1 fldW2 (mkReq "req_w2" "wrk_2")
    rfl (by decide) (by decide) rfl (by decide) rfl (by decide)
  exact ⟨h.1, h.2.1 (some "stolen") none none 91, h.2.2.1 91, h.2.2.2.1,
    h.2.2.2.2.1 (some "stolen") none none none none none none none none 91,
    h.2.2.2.2.2.1 91, rfl,
    (h.2.2.2.2.2.2.2 (fun _ => ("env_g", 7))
      (toStoredCollection wrk1 (buildEnvironmentRecord "wrk_1" "env_g" 7)
        [] []) rfl).1,
    (h.2.2.2.2.2.2.2 (fun _ => ("env_g", 7))
      (toStoredCollection wrk1 (buildEnvironmentRecord "wrk_1" "env_g" 7)
        [] []) rfl).2⟩

end InsomniaMCP
